import Mathlib

/-!
Verification of the PicoCalc SD-card storage stack (src/fatfs/sd_card.c and
src/fatfs/diskio.c) against its natural-language specification.

The driver is shallowly embedded: the SPI bus is modelled as an oracle
`Env.miso : Nat → Nat` giving the byte the card returns on the k-th byte
transfer of the session (every byte clocked in either direction advances the
position).  Wall-clock deadlines (`make_timeout_time_ms` loops) are modelled
by fuel parameters carried in `Env`: one fuel unit per poll iteration of the
corresponding wait loop.  The driver state (`is_sdhc`, `last_error` globals,
stream position, and a trace of the protocol-relevant bytes the driver sent)
is threaded explicitly through every function.

The build is configured with SD_CRC_ENABLED = 1 (src sd_card.h), so the
CRC-enabled branches of the C code are the ones embedded.
-/

set_option maxRecDepth 10000

namespace SdCard

/-- Error codes of `sd_error_t` from sd_card.h. -/
inductive SdError where
  | none
  | noCard
  | timeout
  | cmd
  | crcCmd
  | crcData
  | dataToken
  | writeReject
  | card
  | param
  deriving DecidableEq, Repr

/-- Protocol-relevant events the driver emits on the bus (MOSI side).
Filler/poll bytes inside response-poll loops are not traced individually;
`waitBusy` marks one `wait_ready` polling episode. -/
inductive Ev where
  | cmdPacket (cmd arg : Nat)   -- a 6-byte command packet
  | stuff                        -- the CMD12 stuff byte (sd_send_cmd12)
  | fill                         -- one 0xFF filler byte (Ncs gap / Nwr)
  | token (t : Nat)              -- a data token (0xFE / 0xFC / 0xFD)
  | dataOut (b : List Nat)       -- a 512-byte data block sent
  | crcOut (c : Nat)             -- the 2 CRC bytes sent after a data block
  | waitBusy                     -- one wait_ready polling episode
  deriving DecidableEq, Repr

/-- The environment: the card's behaviour and the timeout budgets.
`miso k` is the byte returned on the k-th byte transfer; fuels give the
number of poll iterations each deadline allows. -/
structure Env where
  present : Bool        -- card-detect line (sd_card_present)
  miso : Nat → Nat
  readFuel : Nat        -- SD_READ_TIMEOUT_MS budget for wait_for_data_token
  readyReadFuel : Nat   -- SD_READ_TIMEOUT_MS budget for wait_ready in reads
  readyWriteFuel : Nat  -- SD_WRITE_TIMEOUT_MS budget for wait_ready in writes
  initFuel : Nat        -- SD_INIT_TIMEOUT_MS budget for the ACMD41 loop

/-- Driver state: stream position, trace of sent events, and the globals
`last_error` and `is_sdhc` of sd_card.c. -/
structure St where
  pos : Nat
  trace : List Ev
  lastError : SdError
  isSdhc : Bool
  deriving Repr

/-- Initial state helper: position `p`, empty trace, error `e`, card kind `b`. -/
def mkSt (p : Nat) (e : SdError) (b : Bool) : St :=
  { pos := p, trace := [], lastError := e, isSdhc := b }

/-- Append one event to the trace. -/
def logEv (e : Ev) (s : St) : St := { s with trace := s.trace ++ [e] }

/-- spi_xfer(0xFF) used as a receive: clock one byte, return what the card sent. -/
def xfer (env : Env) (s : St) : Nat × St :=
  (env.miso s.pos % 256, { s with pos := s.pos + 1 })

/-- spi_xfer(0xFF) used as a filler byte (Ncs gap / Nwr): clock one byte, log it. -/
def fill (s : St) : St := logEv .fill { s with pos := s.pos + 1 }

/-- n raw filler bytes (the 80 dummy clocks of init), logged as fills. -/
def fills (n : Nat) (s : St) : St :=
  match n with
  | 0 => s
  | n + 1 => fills n (fill s)

/-- spi_xfer of a data token (0xFE / 0xFC / 0xFD). -/
def sendToken (t : Nat) (s : St) : St := logEv (.token t) { s with pos := s.pos + 1 }

/-- spi_write_blocking of one 512-byte data block. -/
def sendBlock (b : List Nat) (s : St) : St :=
  logEv (.dataOut b) { s with pos := s.pos + 512 }

/-- spi_write_blocking of the 2 CRC bytes. -/
def sendCrc (c : Nat) (s : St) : St := logEv (.crcOut c) { s with pos := s.pos + 2 }

/-- Receive n bytes (spi_write_read_blocking with 0xFF-filled tx buffer). -/
def readBytes (env : Env) (s : St) (n : Nat) : List Nat × St :=
  ((List.range n).map (fun i => env.miso (s.pos + i) % 256),
   { s with pos := s.pos + n })

/-- The R1 poll loop of sd_cmd / sd_send_cmd12: up to `fuel` byte reads,
stopping at the first byte with the top bit clear; returns the last byte
read together with the new position.  (C: `for (i = 0; i < 8; i++) ...`.) -/
def pollR1 (env : Env) (p : Nat) : Nat → Nat × Nat
  | 0 => (0xFF, p)
  | fuel + 1 =>
    let b := env.miso p % 256
    if b < 0x80 then (b, p + 1)
    else if fuel = 0 then (b, p + 1)
    else pollR1 env (p + 1) fuel

/-- sd_cmd from sd_card.c: send a 6-byte packet, poll up to 8 bytes for R1,
record SD_ERR_CRC_CMD when the R1 CRC-error bit (0x08) is set. -/
def sd_cmd (env : Env) (s : St) (cmd arg : Nat) : Nat × St :=
  let s1 := logEv (.cmdPacket cmd arg) { s with pos := s.pos + 6 }
  let r := (pollR1 env s1.pos 8).1
  let s2 := { s1 with pos := (pollR1 env s1.pos 8).2 }
  if r &&& 0x08 ≠ 0 then (r, { s2 with lastError := .crcCmd }) else (r, s2)

/-- wait_ready polling loop on the raw position (no state beyond pos). -/
def waitReadyAux (env : Env) (p : Nat) : Nat → Bool × Nat
  | 0 => (false, p)
  | fuel + 1 =>
    if env.miso p % 256 = 0xFF then (true, p + 1)
    else waitReadyAux env (p + 1) fuel

/-- wait_ready from sd_card.c: poll MISO until 0xFF (not busy) or the deadline
(`fuel` iterations) expires.  The episode is logged as one `waitBusy` event. -/
def wait_ready (env : Env) (fuel : Nat) (s : St) : Bool × St :=
  let s1 := logEv .waitBusy s
  let r := waitReadyAux env s1.pos fuel
  (r.1, { s1 with pos := r.2 })

/-- wait_for_data_token from sd_card.c: poll until DATA_START_SINGLE (0xFE);
any other byte ≠ 0xFF is an error token (OOR bit → SD_ERR_PARAM, else
SD_ERR_CARD); deadline expiry → SD_ERR_TIMEOUT. -/
def wait_for_data_token (env : Env) (s : St) : Nat → Bool × St
  | 0 => (false, { s with lastError := .timeout })
  | fuel + 1 =>
    let tok := env.miso s.pos % 256
    let s1 := { s with pos := s.pos + 1 }
    if tok = 0xFE then (true, s1)
    else if tok ≠ 0xFF then
      if tok &&& 0x08 ≠ 0 then (false, { s1 with lastError := .param })
      else (false, { s1 with lastError := .card })
    else wait_for_data_token env s1 fuel

/-- sd_send_cmd12 from sd_card.c: the 6-byte CMD12 packet, one stuff byte,
then the R1 poll.  Does not touch last_error. -/
def sd_send_cmd12 (env : Env) (s : St) : Nat × St :=
  let s1 := logEv .stuff (logEv (.cmdPacket 12 0) { s with pos := s.pos + 6 })
  let s2 := { s1 with pos := s1.pos + 1 }
  let r := pollR1 env s2.pos 8
  (r.1, { s2 with pos := r.2 })

/-- The 256-entry CRC-16/CCITT lookup table crc16_table from sd_card.c. -/
def crc16_table : List Nat := [
  0x0000, 0x1021, 0x2042, 0x3063, 0x4084, 0x50A5, 0x60C6, 0x70E7,
  0x8108, 0x9129, 0xA14A, 0xB16B, 0xC18C, 0xD1AD, 0xE1CE, 0xF1EF,
  0x1231, 0x0210, 0x3273, 0x2252, 0x52B5, 0x4294, 0x72F7, 0x62D6,
  0x9339, 0x8318, 0xB37B, 0xA35A, 0xD3BD, 0xC39C, 0xF3FF, 0xE3DE,
  0x2462, 0x3443, 0x0420, 0x1401, 0x64E6, 0x74C7, 0x44A4, 0x5485,
  0xA56A, 0xB54B, 0x8528, 0x9509, 0xE5EE, 0xF5CF, 0xC5AC, 0xD58D,
  0x3653, 0x2672, 0x1611, 0x0630, 0x76D7, 0x66F6, 0x5695, 0x46B4,
  0xB75B, 0xA77A, 0x9719, 0x8738, 0xF7DF, 0xE7FE, 0xD79D, 0xC7BC,
  0x48C4, 0x58E5, 0x6886, 0x78A7, 0x0840, 0x1861, 0x2802, 0x3823,
  0xC9CC, 0xD9ED, 0xE98E, 0xF9AF, 0x8948, 0x9969, 0xA90A, 0xB92B,
  0x5AF5, 0x4AD4, 0x7AB7, 0x6A96, 0x1A71, 0x0A50, 0x3A33, 0x2A12,
  0xDBFD, 0xCBDC, 0xFBBF, 0xEB9E, 0x9B79, 0x8B58, 0xBB3B, 0xAB1A,
  0x6CA6, 0x7C87, 0x4CE4, 0x5CC5, 0x2C22, 0x3C03, 0x0C60, 0x1C41,
  0xEDAE, 0xFD8F, 0xCDEC, 0xDDCD, 0xAD2A, 0xBD0B, 0x8D68, 0x9D49,
  0x7E97, 0x6EB6, 0x5ED5, 0x4EF4, 0x3E13, 0x2E32, 0x1E51, 0x0E70,
  0xFF9F, 0xEFBE, 0xDFDD, 0xCFFC, 0xBF1B, 0xAF3A, 0x9F59, 0x8F78,
  0x9188, 0x81A9, 0xB1CA, 0xA1EB, 0xD10C, 0xC12D, 0xF14E, 0xE16F,
  0x1080, 0x00A1, 0x30C2, 0x20E3, 0x5004, 0x4025, 0x7046, 0x6067,
  0x83B9, 0x9398, 0xA3FB, 0xB3DA, 0xC33D, 0xD31C, 0xE37F, 0xF35E,
  0x02B1, 0x1290, 0x22F3, 0x32D2, 0x4235, 0x5214, 0x6277, 0x7256,
  0xB5EA, 0xA5CB, 0x95A8, 0x8589, 0xF56E, 0xE54F, 0xD52C, 0xC50D,
  0x34E2, 0x24C3, 0x14A0, 0x0481, 0x7466, 0x6447, 0x5424, 0x4405,
  0xA7DB, 0xB7FA, 0x8799, 0x97B8, 0xE75F, 0xF77E, 0xC71D, 0xD73C,
  0x26D3, 0x36F2, 0x0691, 0x16B0, 0x6657, 0x7676, 0x4615, 0x5634,
  0xD94C, 0xC96D, 0xF90E, 0xE92F, 0x99C8, 0x89E9, 0xB98A, 0xA9AB,
  0x5844, 0x4865, 0x7806, 0x6827, 0x18C0, 0x08E1, 0x3882, 0x28A3,
  0xCB7D, 0xDB5C, 0xEB3F, 0xFB1E, 0x8BF9, 0x9BD8, 0xABBB, 0xBB9A,
  0x4A75, 0x5A54, 0x6A37, 0x7A16, 0x0AF1, 0x1AD0, 0x2AB3, 0x3A92,
  0xFD2E, 0xED0F, 0xDD6C, 0xCD4D, 0xBDAA, 0xAD8B, 0x9DE8, 0x8DC9,
  0x7C26, 0x6C07, 0x5C64, 0x4C45, 0x3CA2, 0x2C83, 0x1CE0, 0x0CC1,
  0xEF1F, 0xFF3E, 0xCF5D, 0xDF7C, 0xAF9B, 0xBFBA, 0x8FD9, 0x9FF8,
  0x6E17, 0x7E36, 0x4E55, 0x5E74, 0x2E93, 0x3EB2, 0x0ED1, 0x1EF0]

/-- One step of the table-driven fold of crc16_ccitt from sd_card.c:
`crc = (crc << 8) ^ crc16_table[((crc >> 8) ^ b) & 0xFF]`, the uint16_t
assignment truncating to 16 bits. -/
def crc16_tableStep (crc b : Nat) : Nat :=
  ((crc <<< 8) ^^^ (crc16_table.getD (((crc >>> 8) ^^^ b) &&& 0xFF) 0)) % 65536

/-- crc16_ccitt from sd_card.c: table-driven CRC-16/CCITT with initial value 0. -/
def crc16_ccitt (data : List Nat) : Nat := data.foldl crc16_tableStep 0

/-- Address translation of the read/write entry points:
`uint32_t addr = is_sdhc ? sector : sector * 512;` (uint32_t wrap-around). -/
def sdAddr (sdhc : Bool) (sector : Nat) : Nat :=
  if sdhc then sector else sector * 512 % 4294967296

/-- sd_card_present from sd_card.c (card-detect line, active low). -/
def sd_card_present (env : Env) : Bool := env.present

/-- sd_is_sdhc from sd_card.c: reads the `is_sdhc` global. -/
def sd_is_sdhc (s : St) : Bool := s.isSdhc

/-- sd_last_error from sd_card.c: reads the `last_error` global. -/
def sd_last_error (s : St) : SdError := s.lastError

/-- The CMD0 retry loop of sd_card_init (`for attempt < SD_CMD_RETRIES`):
send CMD0, Ncs filler, stop when R1 == 0x01; r keeps the last response.
Fuel is the number of attempts remaining (10 at the top call). -/
def cmd0Loop (env : Env) (s : St) : Nat → Nat × St
  | 0 => (0, s)
  | fuel + 1 =>
    let c := sd_cmd env s 0 0
    let s1 := fill c.2
    if c.1 = 1 then (c.1, s1)
    else if fuel = 0 then (c.1, s1)
    else cmd0Loop env s1 fuel

/-- One iteration of the ACMD41 do-while loop of sd_card_init: CMD55 + Ncs,
then ACMD41 (HCS per `is_v2`) + Ncs.  `none` models the early
`return false` on a CMD55 error (the state then carries SD_ERR_CMD);
`some r` is the iteration's ACMD41 response. -/
def acmd41Body (env : Env) (s : St) (v2 : Bool) : Option Nat × St :=
  let c55 := sd_cmd env s 55 0
  let s1 := fill c55.2
  if c55.1 &&& 0xFE ≠ 0 then (Option.none, { s1 with lastError := .cmd })
  else
    let hcs := if v2 then 0x40000000 else 0
    let c41 := sd_cmd env s1 41 hcs
    (some c41.1, fill c41.2)

/-- The ACMD41 do-while loop of sd_card_init: at least one iteration, until
R1 == 0 or the deadline (fuel iterations beyond the first) expires. -/
def acmd41Loop (env : Env) (s : St) (v2 : Bool) : Nat → Option Nat × St
  | 0 => acmd41Body env s v2
  | fuel + 1 =>
    match acmd41Body env s v2 with
    | (Option.none, s1) => (Option.none, s1)
    | (some r, s1) => if r = 0 then (some 0, s1) else acmd41Loop env s1 v2 fuel

/-- sd_card_init from sd_card.c.  GPIO/SPI configuration, busy-waits and the
baud-rate switch touch only hardware and are not part of the state; the 80
dummy clocks are the 10 leading fills. -/
def sd_card_init (env : Env) (s : St) : Bool × St :=
  let s := { s with lastError := .none }
  if ¬ sd_card_present env then (false, { s with lastError := .noCard })
  else
    let s := fills 10 s
    let c0 := cmd0Loop env s 10
    if c0.1 ≠ 1 then (false, { c0.2 with lastError := .timeout })
    else
      let c8 := sd_cmd env c0.2 8 0x1AA
      let v2s :=
        if c8.1 = 1 then
          let r7 := readBytes env c8.2 4
          (decide ((r7.1.getD 2 0) &&& 0x0F = 1 ∧ r7.1.getD 3 0 = 0xAA), fill r7.2)
        else (false, fill c8.2)
      let c59 := sd_cmd env v2s.2 59 1
      let s59 := fill c59.2
      let c58 := sd_cmd env s59 58 0
      let ocr := readBytes env c58.2 4
      let s58 := fill ocr.2
      if c58.1 &&& 0xFE ≠ 0 then (false, { s58 with lastError := .cmd })
      else if (ocr.1.getD 1 0) &&& 0x30 = 0 then (false, { s58 with lastError := .cmd })
      else
        match acmd41Loop env s58 v2s.1 env.initFuel with
        | (Option.none, sA) => (false, sA)
        | (some r, sA) =>
          if r ≠ 0 then (false, { sA with lastError := .timeout })
          else
            let c58b := sd_cmd env sA 58 0
            if c58b.1 ≠ 0 then (false, { fill c58b.2 with lastError := .cmd })
            else
              let ocr2 := readBytes env c58b.2 4
              let sB := { fill ocr2.2 with isSdhc := (ocr2.1.getD 0 0) &&& 0x40 ≠ 0 }
              if sB.isSdhc = false then
                let c16 := sd_cmd env sB 16 512
                let s16 := fill c16.2
                if c16.1 ≠ 0 then (false, { s16 with lastError := .cmd })
                else (true, s16)
              else (true, sB)

/-- One pass of the sd_read_block retry loop (fuel = attempts remaining,
SD_READ_RETRIES = 3 at the top call).  Each attempt clears last_error,
sends CMD17, waits for the start token, receives 512 data bytes and the
2 CRC bytes, and verifies the CRC; any failure sets an error and retries. -/
def readBlockLoop (env : Env) (addr : Nat) : Nat → St → Bool × St
  | 0, s => (false, s)
  | fuel + 1, s =>
    let s0 := { s with lastError := .none }
    let c := sd_cmd env s0 17 addr
    if c.1 &&& 0xFE ≠ 0 then
      readBlockLoop env addr fuel { fill c.2 with lastError := .cmd }
    else
      let w := wait_for_data_token env c.2 env.readFuel
      if w.1 = false then readBlockLoop env addr fuel (fill w.2)
      else
        let d := readBytes env w.2 512
        let hi := xfer env d.2
        let lo := xfer env hi.2
        let s1 := fill lo.2
        if hi.1 * 256 + lo.1 ≠ crc16_ccitt d.1 then
          readBlockLoop env addr fuel { s1 with lastError := .crcData }
        else (true, s1)

/-- sd_read_block from sd_card.c (the returned data block itself is consumed
from the stream inside the loop; the boolean is the C return value). -/
def sd_read_block (env : Env) (s : St) (sector : Nat) : Bool × St :=
  readBlockLoop env (sdAddr s.isSdhc sector) 3 s

/-- The per-block loop of sd_read_blocks (CMD18 context).  Fuel counts the
blocks still to read.  On a missing/error token or a CRC mismatch the C
code sends CMD12 (with stuff byte), waits not-busy, clocks the Ncs gap and
returns false; completing all blocks returns true with the loop's state. -/
def readBlocksLoop (env : Env) : Nat → St → Bool × St
  | 0, s => (true, s)
  | n + 1, s =>
    let w := wait_for_data_token env s env.readFuel
    if w.1 = false then
      (false, fill (wait_ready env env.readyReadFuel (sd_send_cmd12 env w.2).2).2)
    else
      let d := readBytes env w.2 512
      let hi := xfer env d.2
      let lo := xfer env hi.2
      if hi.1 * 256 + lo.1 ≠ crc16_ccitt d.1 then
        (false, fill (wait_ready env env.readyReadFuel
          (sd_send_cmd12 env { lo.2 with lastError := .crcData }).2).2)
      else readBlocksLoop env n lo.2

/-- sd_read_blocks from sd_card.c: count == 1 delegates to sd_read_block;
otherwise CMD18, the block loop, then STOP_TRANSMISSION via sd_send_cmd12,
wait not-busy, Ncs gap, and the stop R1 check. -/
def sd_read_blocks (env : Env) (s : St) (sector count : Nat) : Bool × St :=
  if count = 1 then sd_read_block env s sector
  else
    let addr := sdAddr s.isSdhc sector
    let s0 := { s with lastError := .none }
    let c := sd_cmd env s0 18 addr
    if c.1 &&& 0xFE ≠ 0 then (false, { fill c.2 with lastError := .cmd })
    else
      let l := readBlocksLoop env count c.2
      if l.1 = false then (false, l.2)
      else
        let c12 := sd_send_cmd12 env l.2
        let s1 := fill (wait_ready env env.readyReadFuel c12.2).2
        if c12.1 &&& 0xFE ≠ 0 then (false, { s1 with lastError := .cmd })
        else (true, s1)

/-- sd_write_block from sd_card.c: CMD24, Nwr filler, start token, 512 data
bytes, CRC16, data-response classification, then the programming wait. -/
def sd_write_block (env : Env) (s : St) (sector : Nat) (buf : List Nat) : Bool × St :=
  let addr := sdAddr s.isSdhc sector
  let s0 := { s with lastError := .none }
  let c := sd_cmd env s0 24 addr
  if c.1 &&& 0xFE ≠ 0 then (false, { fill c.2 with lastError := .cmd })
  else
    let s1 := sendCrc (crc16_ccitt buf) (sendBlock buf (sendToken 0xFE (fill c.2)))
    let rsp := xfer env s1
    let resp := rsp.1 &&& 0x1F
    let s2 := fill rsp.2
    if resp = 0x0B then (false, { s2 with lastError := .crcData })
    else if resp = 0x0D then (false, { s2 with lastError := .writeReject })
    else if resp ≠ 0x05 then (false, { s2 with lastError := .writeReject })
    else
      let wr := wait_ready env env.readyWriteFuel s2
      let s3 := fill wr.2
      if wr.1 then (true, s3) else (false, { s3 with lastError := .timeout })

/-- The prefix of the multi-block write path of sd_write_blocks: clear
last_error, CMD55 + Ncs, the non-fatal ACMD23 pre-erase hint when CMD55
was accepted, then CMD25; returns the CMD25 R1 and the state. -/
def writeBlocksPre (env : Env) (s : St) (sector count : Nat) : Nat × St :=
  let addr := sdAddr s.isSdhc sector
  let s0 := { s with lastError := .none }
  let c55 := sd_cmd env s0 55 0
  let s1 := fill c55.2
  let s2 :=
    if c55.1 &&& 0xFE ≠ 0 then s1
    else fill (sd_cmd env s1 23 count).2
  sd_cmd env s2 25 addr

/-- The per-block loop of sd_write_blocks (CMD25 context): for each block a
Nwr filler, the StartMulti token (0xFC), 512 data bytes, the CRC16, the
data-response byte, and the programming wait.  Both abort paths send the
StopTran token (0xFD), one filler byte, wait not-busy and clock the Ncs gap
before returning false. -/
def writeBlocksLoop (env : Env) : List (List Nat) → St → Bool × St
  | [], s => (true, s)
  | b :: rest, s =>
    let s1 := sendCrc (crc16_ccitt b) (sendBlock b (sendToken 0xFC (fill s)))
    let rsp := xfer env s1
    let resp := rsp.1 &&& 0x1F
    if resp ≠ 0x05 then
      let e : SdError :=
        if resp = 0x0B then .crcData
        else if resp = 0x0D then .writeReject
        else .writeReject
      (false, fill (wait_ready env env.readyWriteFuel
        (fill (sendToken 0xFD { rsp.2 with lastError := e }))).2)
    else
      let wr := wait_ready env env.readyWriteFuel rsp.2
      if wr.1 = false then
        (false, fill (wait_ready env env.readyWriteFuel
          (fill (sendToken 0xFD { wr.2 with lastError := .timeout }))).2)
      else writeBlocksLoop env rest wr.2

/-- sd_write_blocks from sd_card.c: count == 1 delegates to sd_write_block;
otherwise the ACMD23/CMD25 prefix, the block loop, and the terminating
StopTran token + filler + not-busy wait.  The C code streams count·512
bytes from the caller's buffer; the embedding takes them as a list of
512-byte blocks, defaulting to [] past the end of the list. -/
def sd_write_blocks (env : Env) (s : St) (sector count : Nat)
    (bufs : List (List Nat)) : Bool × St :=
  if count = 1 then sd_write_block env s sector (bufs.headD [])
  else
    let c25 := writeBlocksPre env s sector count
    if c25.1 &&& 0xFE ≠ 0 then (false, { fill c25.2 with lastError := .cmd })
    else
      let l := writeBlocksLoop env ((List.range count).map (fun i => bufs.getD i [])) c25.2
      if l.1 = false then (false, l.2)
      else
        let s1 := fill (sendToken 0xFD l.2)
        let wr := wait_ready env env.readyWriteFuel s1
        if wr.1 = false then (false, { fill wr.2 with lastError := .timeout })
        else (true, fill wr.2)

/-- The CSD capacity computation of sd_get_sector_count: version dispatch on
`csd[0] >> 6`, the v2 formula `(C_SIZE + 1) * 1024`, and the v1 formula
`(C_SIZE + 1) << (C_SIZE_MULT + READ_BL_LEN - 7)`, stored to a uint32_t.
In C the shift amount is computed in unsigned arithmetic; when
C_SIZE_MULT + READ_BL_LEN < 7 that wraps around and the shift is undefined
behaviour, so the embedding's truncated subtraction is only meaningful for
C_SIZE_MULT + READ_BL_LEN ≥ 7 (real CSDs have READ_BL_LEN ≥ 9). -/
def csdCapacity (csd : List Nat) : Nat :=
  let ver := (csd.getD 0 0 >>> 6) &&& 0x03
  if ver = 1 then
    let cSize := ((csd.getD 7 0 &&& 0x3F) <<< 16) ||| (csd.getD 8 0 <<< 8) ||| csd.getD 9 0
    (cSize + 1) * 1024 % 4294967296
  else
    let cSize := ((csd.getD 6 0 &&& 0x03) <<< 10) ||| (csd.getD 7 0 <<< 2)
                 ||| ((csd.getD 8 0 &&& 0xC0) >>> 6)
    let cSizeMult := ((csd.getD 9 0 &&& 0x03) <<< 1) ||| ((csd.getD 10 0 >>> 7) &&& 0x01)
    let readBlLen := csd.getD 5 0 &&& 0x0F
    (cSize + 1) <<< (cSizeMult + readBlLen - 7) % 4294967296

/-- sd_get_sector_count from sd_card.c: CMD9, start token, the 16 CSD bytes,
2 CRC bytes + Ncs gap, CRC verification, then the capacity computation.
`some n` models `*count = n; return true`. -/
def sd_get_sector_count (env : Env) (s : St) : Option Nat × St :=
  let s0 := { s with lastError := .none }
  let c := sd_cmd env s0 9 0
  if c.1 &&& 0xFE ≠ 0 then (Option.none, { fill c.2 with lastError := .cmd })
  else
    let w := wait_for_data_token env c.2 env.readFuel
    if w.1 = false then (Option.none, fill w.2)
    else
      let d := readBytes env w.2 16
      let hi := xfer env d.2
      let lo := xfer env hi.2
      let s1 := fill lo.2
      if hi.1 * 256 + lo.1 ≠ crc16_ccitt d.1 then
        (Option.none, { s1 with lastError := .crcData })
      else (some (csdCapacity d.1), s1)

end SdCard

namespace FatFsDisk

open SdCard

/-- STA_NOINIT of FatFS diskio.h.  Modelled from the spec: §6 fixes only the
shape of the status set; the numeric values are the standard FatFS ones
(diskio.h is not part of src/). -/
def STA_NOINIT : Nat := 1

/-- RES_OK of FatFS diskio.h (modelled from the spec, standard FatFS value). -/
def RES_OK : Nat := 0

/-- RES_ERROR of FatFS diskio.h (modelled from the spec, standard value). -/
def RES_ERROR : Nat := 1

/-- RES_PARERR of FatFS diskio.h (modelled from the spec, standard value). -/
def RES_PARERR : Nat := 4

/-- The C boolean-to-integer conversion applied when a `bool` result is
compared against the enumerator SD_ERR_NONE (= 0) in diskio.c. -/
def boolToNat (b : Bool) : Nat := if b then 1 else 0

/-- disk_initialize from diskio.c:
`return sd_card_init() == SD_ERR_NONE ? 0 : STA_NOINIT;`
(the boolean result of sd_card_init is compared with SD_ERR_NONE = 0). -/
def diskInit (env : Env) (s : St) (pdrv : Nat) : Nat × St :=
  if pdrv ≠ 0 then (STA_NOINIT, s)
  else
    let r := sd_card_init env s
    (if boolToNat r.1 = 0 then 0 else STA_NOINIT, r.2)

/-- disk_read from diskio.c:
`return sd_read_blocks(sector, count, buf) == SD_ERR_NONE ? RES_OK : RES_ERROR;`. -/
def diskRead (env : Env) (s : St) (pdrv sector count : Nat) : Nat × St :=
  if pdrv ≠ 0 then (RES_PARERR, s)
  else
    let r := sd_read_blocks env s sector count
    (if boolToNat r.1 = 0 then RES_OK else RES_ERROR, r.2)

/-- disk_write from diskio.c:
`return sd_write_blocks(sector, count, buf) == SD_ERR_NONE ? RES_OK : RES_ERROR;`. -/
def diskWrite (env : Env) (s : St) (pdrv sector count : Nat)
    (bufs : List (List Nat)) : Nat × St :=
  if pdrv ≠ 0 then (RES_PARERR, s)
  else
    let r := sd_write_blocks env s sector count bufs
    (if boolToNat r.1 = 0 then RES_OK else RES_ERROR, r.2)

/-- The GET_SECTOR_COUNT arm of disk_ioctl from diskio.c:
`if (sd_get_sector_count(&n) != SD_ERR_NONE) return RES_ERROR;
 *(LBA_t *)buf = n; return RES_OK;`
`none` as stored value models the uninitialized n written on the path where
the driver call failed. -/
def diskIoctlSectorCount (env : Env) (s : St) : Nat × Option Nat × St :=
  let r := sd_get_sector_count env s
  if boolToNat r.1.isSome ≠ 0 then (RES_ERROR, Option.none, r.2)
  else (RES_OK, Option.none, r.2)

end FatFsDisk

namespace SdCard

/-- One step of the reference bit-serial CRC-16/CCITT (polynomial
x^16 + x^12 + x^5 + 1, i.e. 0x1021): shift left, feeding one data bit;
when the bit shifted out xored with the data bit is 1, xor the polynomial. -/
def crcBit (c b : Nat) : Nat :=
  if ((c >>> 15) + b) % 2 = 1 then ((c <<< 1) ^^^ 0x1021) % 65536
  else (c <<< 1) % 65536

/-- The 8 bits of a byte, most significant first. -/
def bits8 (b : Nat) : List Nat :=
  [(b >>> 7) &&& 1, (b >>> 6) &&& 1, (b >>> 5) &&& 1, (b >>> 4) &&& 1,
   (b >>> 3) &&& 1, (b >>> 2) &&& 1, (b >>> 1) &&& 1, b &&& 1]

/-- Reference bit-serial CRC-16/CCITT absorption of one byte, MSB first. -/
def crc16_bit_byte (c b : Nat) : Nat := (bits8 b).foldl crcBit c

/-- Reference naive bit-by-bit CRC-16/CCITT of a byte sequence, initial 0. -/
def crc16_bitwise (bs : List Nat) : Nat := bs.foldl crc16_bit_byte 0

/-- Environment builder for the concrete card behaviours used below:
card present, all deadline fuels 8. -/
def mkEnv (f : Nat → Nat) : Env :=
  { present := true, miso := f, readFuel := 8, readyReadFuel := 8,
    readyWriteFuel := 8, initFuel := 8 }

/-- A card on which sd_card_init succeeds: CMD0 → 0x01, CMD8 → 0x01 with a
valid R7 echo, CMD59 → 0x00, CMD58 → 0x00 with 3.3 V OCR bits, CMD55 →
0x01, ACMD41 → 0x00, CMD58 → 0x00 with CCS set (SDHC). -/
def envInitOk : Env := mkEnv (fun i =>
  if i = 16 then 0x01 else if i = 24 then 0x01
  else if i = 27 then 0x01 else if i = 28 then 0xAA
  else if i = 36 then 0x00 else if i = 44 then 0x00 else if i = 46 then 0x30
  else if i = 56 then 0x01 else if i = 64 then 0x00
  else if i = 72 then 0x00 else if i = 73 then 0x40 else 0xFF)

/-- Like envInitOk, except the non-fatal CMD59 (CRC_ON_OFF) answers with the
R1 CRC-error bit (0x08) set; init still succeeds on this card. -/
def envInitCrc : Env := mkEnv (fun i =>
  if i = 16 then 0x01 else if i = 24 then 0x01
  else if i = 27 then 0x01 else if i = 28 then 0xAA
  else if i = 36 then 0x08 else if i = 44 then 0x00 else if i = 46 then 0x30
  else if i = 56 then 0x01 else if i = 64 then 0x00
  else if i = 72 then 0x00 else if i = 73 then 0x40 else 0xFF)

/-- No card inserted. -/
def envNoCard : Env := { mkEnv (fun _ => 0xFF) with present := false }

/-- A card on which a single-block read succeeds at the first attempt:
CMD17 → 0x00, start token, 512 zero data bytes, matching CRC 0x0000. -/
def envReadOk : Env := mkEnv (fun i =>
  if i = 6 then 0x00 else if i = 7 then 0xFE
  else if 8 ≤ i ∧ i ≤ 521 then 0x00 else 0xFF)

/-- A card whose first CMD17 answers R1 = 0x04 (illegal command — a hard
command error), and whose second attempt succeeds with 512 zero bytes. -/
def envRetry : Env := mkEnv (fun i =>
  if i = 6 then 0x04 else if i = 14 then 0x00 else if i = 15 then 0xFE
  else if 16 ≤ i ∧ i ≤ 529 then 0x00 else 0xFF)

/-- A card on which a 2-block CMD18 read runs to completion: CMD18 → 0x00,
two (start token + 512 zero bytes + CRC 0x0000) blocks, CMD12 → 0x00. -/
def envRead2 : Env := mkEnv (fun i =>
  if i = 6 then 0x00 else if i = 7 then 0xFE
  else if 8 ≤ i ∧ i ≤ 521 then 0x00
  else if i = 522 then 0xFE
  else if 523 ≤ i ∧ i ≤ 1036 then 0x00
  else if i = 1044 then 0x00 else 0xFF)

/-- A card on which a 2-block CMD25 write runs to completion: CMD55 → 0x01,
ACMD23 → 0x00, CMD25 → 0x00, both data responses Accepted (0x05), never
busy. -/
def envWrite2 : Env := mkEnv (fun i =>
  if i = 6 then 0x01 else if i = 14 then 0x00 else if i = 22 then 0x00
  else if i = 539 then 0x05 else if i = 1057 then 0x05 else 0xFF)

/-- The CSD v1 register of spec §8 scenario 6: C_SIZE = 0x0F23,
C_SIZE_MULT = 7, READ_BL_LEN = 9. -/
def csdV1 : List Nat :=
  [0x00, 0x00, 0x00, 0x00, 0x00, 0x09, 0x03, 0xC8, 0xC0, 0x03, 0x80,
   0x00, 0x00, 0x00, 0x00, 0x00]

/-- A card on which CMD9 delivers csdV1 intact: CMD9 → 0x00, start token,
the 16 CSD bytes, then their correct CRC-16. -/
def envCsd : Env := mkEnv (fun i =>
  if i = 6 then 0x00 else if i = 7 then 0xFE
  else if 8 ≤ i ∧ i ≤ 23 then csdV1.getD (i - 8) 0
  else if i = 24 then crc16_ccitt csdV1 / 256
  else if i = 25 then crc16_ccitt csdV1 % 256 else 0xFF)

/-- A card that answers every clock with the error token 0x04 (ECC failure
bit) — used against wait_for_data_token. -/
def envEcc : Env := mkEnv (fun _ => 0x04)

/-- Event predicate: a command packet with the given command index. -/
def isCmd (c : Nat) : Ev → Bool
  | .cmdPacket c' _ => c' = c
  | _ => false

/-- Event predicate: the CMD12 stuff byte. -/
def isStuffEv : Ev → Bool
  | .stuff => true
  | _ => false

/-- Event predicate: the StopTran token (0xFD). -/
def isStopTran : Ev → Bool
  | .token t => t = 0xFD
  | _ => false

/-- Every command packet for command `c` in the trace carries argument `a`. -/
def cmdArgsOk (c a : Nat) (tr : List Ev) : Prop :=
  ∀ x, Ev.cmdPacket c x ∈ tr → x = a


/-- A card whose every R1 poll answers 0x05 (error bits set):
all read attempts fail at the CMD17 stage. -/
def envFail : Env := mkEnv (fun _ => 0x05)


/-- The R1 of sd_get_sector_count's CMD9, used to phrase the CSD delivery
hypotheses (mirrors the prefix of the function). -/
def csdStage1 (env : Env) (s : St) : Nat × St :=
  sd_cmd env { s with lastError := SdError.none } 9 0

/-- The start-token wait of sd_get_sector_count, after the CMD9 prefix. -/
def csdStage2 (env : Env) (s : St) : Bool × St :=
  wait_for_data_token env (csdStage1 env s).2 env.readFuel

/-- The 16 CSD bytes sd_get_sector_count receives. -/
def csdBytes (env : Env) (s : St) : List Nat :=
  (readBytes env (csdStage2 env s).2 16).1

/-- The 16-bit CRC received after the CSD bytes (hi byte first). -/
def csdCrc (env : Env) (s : St) : Nat :=
  (xfer env (readBytes env (csdStage2 env s).2 16).2).1 * 256 +
    (xfer env (xfer env (readBytes env (csdStage2 env s).2 16).2).2).1


/-- XOR distributes over left shift. -/
theorem xor_shiftLeft_distrib (x y n : Nat) :
    (x ^^^ y) <<< n = (x <<< n) ^^^ (y <<< n) := by
  apply Nat.eq_of_testBit_eq
  intro i
  simp only [Nat.testBit_shiftLeft, Nat.testBit_xor]
  by_cases h : n ≤ i <;> simp [h]

/-- XOR distributes over right shift. -/
theorem xor_shiftRight_distrib (x y n : Nat) :
    (x ^^^ y) >>> n = (x >>> n) ^^^ (y >>> n) := by
  apply Nat.eq_of_testBit_eq
  intro i
  simp [Nat.testBit_shiftRight, Nat.testBit_xor]

/-- XOR distributes over reduction modulo a power of two. -/
theorem xor_mod_two_pow (x y n : Nat) :
    (x ^^^ y) % 2 ^ n = (x % 2 ^ n) ^^^ (y % 2 ^ n) := by
  apply Nat.eq_of_testBit_eq
  intro i
  simp only [Nat.testBit_mod_two_pow, Nat.testBit_xor]
  by_cases h : i < n <;> simp [h]

/-- XOR of two values below a power of two stays below it. -/
theorem xor_lt_two_pow (x y n : Nat) (hx : x < 2 ^ n) (hy : y < 2 ^ n) :
    x ^^^ y < 2 ^ n := by
  apply Nat.lt_pow_two_of_testBit
  intro i hi
  simp only [Nat.testBit_xor]
  rw [Nat.testBit_lt_two_pow (lt_of_lt_of_le hx (Nat.pow_le_pow_right (by norm_num) hi)),
    Nat.testBit_lt_two_pow (lt_of_lt_of_le hy (Nat.pow_le_pow_right (by norm_num) hi))]
  rfl

/-- A left-commutativity helper for XOR on Nat. -/
theorem xor_left_comm (a b c : Nat) : a ^^^ (b ^^^ c) = b ^^^ (a ^^^ c) := by
  rw [← Nat.xor_assoc, Nat.xor_comm a b, Nat.xor_assoc]

/-- One CRC bit step stays below 2^16. -/
theorem crcBit_lt (c b : Nat) : crcBit c b < 65536 := by
  unfold crcBit
  split <;> exact Nat.mod_lt _ (by norm_num)

/-- Algebraic form of the CRC bit step: the conditional polynomial xor as a
multiplication by the parity of (top bit + data bit). -/
theorem crcBit_eq (c b : Nat) :
    crcBit c b = ((c <<< 1) ^^^ ((c >>> 15 + b) % 2) * 0x1021) % 65536 := by
  unfold crcBit
  rcases Nat.mod_two_eq_zero_or_one (c >>> 15 + b) with h | h <;> simp [h]

/-- The CRC bit step is XOR-linear: the step of an XOR of states fed the
parity-sum of two data bits is the XOR of the individual steps. -/
theorem crcBit_xor (x y bx bz : Nat) (hx : x < 65536) (hy : y < 65536)
    (hbx : bx < 2) (hbz : bz < 2) :
    crcBit (x ^^^ y) ((bx + bz) % 2) = crcBit x bx ^^^ crcBit y bz := by
  have h16 : (65536 : Nat) = 2 ^ 16 := by norm_num
  have htx : x >>> 15 < 2 := by
    rw [Nat.shiftRight_eq_div_pow]
    omega
  have hty : y >>> 15 < 2 := by
    rw [Nat.shiftRight_eq_div_pow]
    omega
  rw [crcBit_eq, crcBit_eq, crcBit_eq, xor_shiftRight_distrib, xor_shiftLeft_distrib]
  have e1 : x >>> 15 = 0 ∨ x >>> 15 = 1 := by omega
  have e2 : y >>> 15 = 0 ∨ y >>> 15 = 1 := by omega
  have e3 : bx = 0 ∨ bx = 1 := by omega
  have e4 : bz = 0 ∨ bz = 1 := by omega
  have hparity : ((x >>> 15 ^^^ y >>> 15) + (bx + bz) % 2) % 2 =
      (((x >>> 15 + bx) % 2) + ((y >>> 15 + bz) % 2)) % 2 := by
    rcases e1 with h1 | h1 <;> rcases e2 with h2 | h2 <;>
      rcases e3 with h3 | h3 <;> rcases e4 with h4 | h4 <;>
      rw [h1, h2, h3, h4] <;> rfl
  have hmul : ∀ p q : Nat, p < 2 → q < 2 →
      ((p + q) % 2) * 0x1021 = (p * 0x1021) ^^^ (q * 0x1021) := by
    intro p q hp hq
    have hp2 : p = 0 ∨ p = 1 := by omega
    have hq2 : q = 0 ∨ q = 1 := by omega
    rcases hp2 with h | h <;> rcases hq2 with h2 | h2 <;> rw [h, h2] <;> rfl
  have hinner : ∀ A B C D : Nat, (A ^^^ B) ^^^ (C ^^^ D) = (A ^^^ C) ^^^ (B ^^^ D) := by
    intro A B C D
    conv_lhs => rw [Nat.xor_assoc, xor_left_comm B]
    rw [Nat.xor_assoc]
  rw [hparity, hmul _ _ (Nat.mod_lt _ (by norm_num)) (Nat.mod_lt _ (by norm_num)), hinner]
  simp only [h16]
  rw [xor_mod_two_pow]

/-- The fold of the CRC bit step over bit lists is XOR-linear. -/
theorem foldl_crcBit_xor : ∀ (lx lz : List Nat) (x y : Nat),
    lx.length = lz.length → x < 65536 → y < 65536 →
    (∀ b ∈ lx, b < 2) → (∀ b ∈ lz, b < 2) →
    (List.zipWith (fun a b => (a + b) % 2) lx lz).foldl crcBit (x ^^^ y) =
      lx.foldl crcBit x ^^^ lz.foldl crcBit y
  | [], [], x, y, _, _, _, _, _ => rfl
  | [], b :: lz, x, y, hlen, _, _, _, _ => by simp at hlen
  | a :: lx, [], x, y, hlen, _, _, _, _ => by simp at hlen
  | a :: lx, b :: lz, x, y, hlen, hx, hy, hlx, hlz => by
    simp only [List.zipWith, List.foldl]
    rw [crcBit_xor x y a b hx hy (hlx a (by simp)) (hlz b (by simp))]
    exact foldl_crcBit_xor lx lz _ _ (by simpa using hlen) (crcBit_lt x a)
      (crcBit_lt y b) (fun c hc => hlx c (by simp [hc]))
      (fun c hc => hlz c (by simp [hc]))

/-- One extracted bit of an XOR is the parity-sum of the extracted bits. -/
theorem bitOf_xor (x y k : Nat) :
    ((x ^^^ y) >>> k) &&& 1 = (((x >>> k) &&& 1) + ((y >>> k) &&& 1)) % 2 := by
  rw [xor_shiftRight_distrib, Nat.and_one_is_mod, Nat.and_one_is_mod, Nat.and_one_is_mod]
  have h2 : (2 : Nat) = 2 ^ 1 := rfl
  rw [h2, xor_mod_two_pow, ← h2]
  rcases Nat.mod_two_eq_zero_or_one (x >>> k) with h | h <;>
    rcases Nat.mod_two_eq_zero_or_one (y >>> k) with h2 | h2 <;> rw [h, h2] <;> rfl

/-- XOR and addition agree modulo two. -/
theorem mod_two_xor (a b : Nat) : (a ^^^ b) % 2 = (a + b) % 2 := by
  have h2 : (2 : Nat) = 2 ^ 1 := rfl
  rw [h2, xor_mod_two_pow, ← h2, Nat.add_mod]
  rcases Nat.mod_two_eq_zero_or_one a with h | h <;>
    rcases Nat.mod_two_eq_zero_or_one b with h3 | h3 <;> rw [h, h3] <;> rfl

/-- Bit extraction commutes with XOR, componentwise over bits8. -/
theorem bits8_xor (u v : Nat) :
    bits8 (u ^^^ v) = List.zipWith (fun a b => (a + b) % 2) (bits8 u) (bits8 v) := by
  have h : ∀ k, ((u ^^^ v) >>> k) % 2 = (u >>> k + v >>> k) % 2 := fun k => by
    rw [xor_shiftRight_distrib, mod_two_xor]
  simp [bits8, List.zipWith, Nat.and_one_is_mod, h, mod_two_xor, Nat.add_mod]

/-- Every entry of bits8 is a bit. -/
theorem bits8_lt (b : Nat) : ∀ x ∈ bits8 b, x < 2 := by
  intro x hx
  simp only [bits8, List.mem_cons, List.not_mem_nil, or_false] at hx
  rcases hx with h | h | h | h | h | h | h | h <;>
    · subst h
      rw [Nat.and_one_is_mod]
      exact Nat.mod_lt _ (by norm_num)

/-- Absorbing a byte keeps the CRC state below 2^16. -/
theorem crc16_bit_byte_lt (c b : Nat) : crc16_bit_byte c b < 65536 := by
  simp only [crc16_bit_byte, bits8, List.foldl]
  exact crcBit_lt _ _

/-- Absorbing the zero byte into a one-byte state just shifts it up. -/
theorem crc16_bit_byte_lo : ∀ lo : Fin 256, crc16_bit_byte lo.val 0 = lo.val <<< 8 := by
  decide

/-- Absorbing a byte into the state holding that byte in its top half
cancels to zero. -/
theorem crc16_bit_byte_cancel : ∀ b : Fin 256,
    crc16_bit_byte (b.val <<< 8) b.val = 0 := by
  decide

/-- Every crc16_table entry is the bit-serial CRC of its index placed in the
top half of the state. -/
theorem crc16_table_entry : ∀ t : Fin 256,
    crc16_table.getD t.val 0 = crc16_bit_byte (t.val <<< 8) 0 := by
  decide

/-- Every crc16_table entry is below 2^16. -/
theorem crc16_table_lt : ∀ t : Fin 256, crc16_table.getD t.val 0 < 65536 := by
  decide

/-- Splitting a 16-bit value into its top byte (shifted) and bottom byte. -/
theorem shift_xor_decomp (c : Nat) :
    ((c >>> 8) <<< 8) ^^^ (c % 256) = c := by
  apply Nat.eq_of_testBit_eq
  intro i
  have h256 : (256 : Nat) = 2 ^ 8 := rfl
  simp only [Nat.testBit_xor, Nat.testBit_shiftLeft, Nat.testBit_shiftRight, h256,
    Nat.testBit_mod_two_pow]
  by_cases h8 : 8 ≤ i
  · have hlt : ¬ i < 8 := by omega
    have harith : 8 + (i - 8) = i := by omega
    simp [h8, hlt, harith]
  · have hlt : i < 8 := by omega
    simp [h8, hlt]

/-- The uint16_t truncation of an 8-bit left shift keeps the bottom byte. -/
theorem shiftLeft8_mod (c : Nat) : (c <<< 8) % 65536 = (c % 256) <<< 8 := by
  rw [Nat.shiftLeft_eq, Nat.shiftLeft_eq, show (65536 : Nat) = 256 * 2 ^ 8 from rfl,
    show (2 : Nat) ^ 8 = 256 from rfl, Nat.mul_mod_mul_right]

/-- Absorbing one byte bit-serially agrees with the table-driven step of
crc16_ccitt, for a 16-bit state and an 8-bit byte. -/
theorem crc16_bit_byte_eq_tableStep (c b : Nat) (hc : c < 65536) (hb : b < 256) :
    crc16_bit_byte c b = crc16_tableStep c b := by
  have h16 : (65536 : Nat) = 2 ^ 16 := by norm_num
  have h256 : (256 : Nat) = 2 ^ 8 := rfl
  have hhi : c >>> 8 < 256 := by
    rw [Nat.shiftRight_eq_div_pow]
    omega
  have hlo : c % 256 < 256 := Nat.mod_lt _ (by norm_num)
  have ht : (c >>> 8) ^^^ b < 256 := by
    rw [h256]
    exact xor_lt_two_pow _ _ _ (h256 ▸ hhi) (h256 ▸ hb)
  have hX : (c >>> 8) <<< 8 < 65536 := by
    rw [Nat.shiftLeft_eq, show (2 : Nat) ^ 8 = 256 from by norm_num]
    omega
  -- First split: c = ((c>>>8)<<<8) ^^^ (c%256), b = b ^^^ 0.
  have step1 : crc16_bit_byte c b =
      crc16_bit_byte ((c >>> 8) <<< 8) b ^^^ crc16_bit_byte (c % 256) 0 := by
    unfold crc16_bit_byte
    calc (bits8 b).foldl crcBit c
        = (bits8 (b ^^^ 0)).foldl crcBit (((c >>> 8) <<< 8) ^^^ (c % 256)) := by
          rw [Nat.xor_zero, shift_xor_decomp]
      _ = (List.zipWith (fun a b => (a + b) % 2) (bits8 b) (bits8 0)).foldl crcBit
            (((c >>> 8) <<< 8) ^^^ (c % 256)) := by rw [bits8_xor]
      _ = (bits8 b).foldl crcBit ((c >>> 8) <<< 8) ^^^ (bits8 0).foldl crcBit (c % 256) := by
          exact foldl_crcBit_xor (bits8 b) (bits8 0) _ _ (by simp [bits8]) hX
            (by omega) (bits8_lt b) (bits8_lt 0)
  -- Second split: (c>>>8)<<<8 = (((c>>>8)^^^b)<<<8) ^^^ (b<<<8), b = 0 ^^^ b.
  have step2 : crc16_bit_byte ((c >>> 8) <<< 8) b =
      crc16_bit_byte (((c >>> 8) ^^^ b) <<< 8) 0 ^^^ crc16_bit_byte (b <<< 8) b := by
    unfold crc16_bit_byte
    have hsplit : (c >>> 8) <<< 8 = (((c >>> 8) ^^^ b) <<< 8) ^^^ (b <<< 8) := by
      rw [← xor_shiftLeft_distrib, Nat.xor_assoc, Nat.xor_self, Nat.xor_zero]
    have hU : ((c >>> 8) ^^^ b) <<< 8 < 65536 := by
      rw [Nat.shiftLeft_eq, show (2 : Nat) ^ 8 = 256 from by norm_num]
      omega
    have hV : b <<< 8 < 65536 := by
      rw [Nat.shiftLeft_eq, show (2 : Nat) ^ 8 = 256 from by norm_num]
      omega
    calc (bits8 b).foldl crcBit ((c >>> 8) <<< 8)
        = (bits8 (0 ^^^ b)).foldl crcBit ((((c >>> 8) ^^^ b) <<< 8) ^^^ (b <<< 8)) := by
          rw [Nat.zero_xor, hsplit]
      _ = (List.zipWith (fun a b => (a + b) % 2) (bits8 0) (bits8 b)).foldl crcBit
            ((((c >>> 8) ^^^ b) <<< 8) ^^^ (b <<< 8)) := by rw [bits8_xor]
      _ = (bits8 0).foldl crcBit (((c >>> 8) ^^^ b) <<< 8) ^^^
            (bits8 b).foldl crcBit (b <<< 8) := by
          exact foldl_crcBit_xor (bits8 0) (bits8 b) _ _ (by simp [bits8]) hU hV
            (bits8_lt 0) (bits8_lt b)
  have hZ : crc16_bit_byte (b <<< 8) b = 0 := crc16_bit_byte_cancel ⟨b, hb⟩
  have hL : crc16_bit_byte (c % 256) 0 = (c % 256) <<< 8 :=
    crc16_bit_byte_lo ⟨c % 256, hlo⟩
  have hT : crc16_bit_byte (((c >>> 8) ^^^ b) <<< 8) 0 =
      crc16_table.getD ((c >>> 8) ^^^ b) 0 :=
    (crc16_table_entry ⟨(c >>> 8) ^^^ b, ht⟩).symm
  have hg : crc16_table.getD ((c >>> 8) ^^^ b) 0 < 65536 :=
    crc16_table_lt ⟨(c >>> 8) ^^^ b, ht⟩
  have hmask : ((c >>> 8) ^^^ b) &&& 0xFF = (c >>> 8) ^^^ b := by
    rw [show (0xFF : Nat) = 2 ^ 8 - 1 from rfl, Nat.and_pow_two_sub_one_eq_mod]
    exact Nat.mod_eq_of_lt (h256 ▸ ht)
  rw [step1, step2, hZ, hL, hT, Nat.xor_zero]
  unfold crc16_tableStep
  rw [hmask, h16, xor_mod_two_pow, ← h16, shiftLeft8_mod, Nat.mod_eq_of_lt hg,
    Nat.xor_comm]

/-- The table-driven fold and the bit-serial fold agree from any 16-bit
state over any byte list. -/
theorem foldl_tableStep_eq : ∀ (bs : List Nat) (c : Nat), c < 65536 →
    (∀ b ∈ bs, b < 256) →
    bs.foldl crc16_tableStep c = bs.foldl crc16_bit_byte c
  | [], _, _, _ => rfl
  | b :: bs, c, hc, hb => by
    simp only [List.foldl]
    rw [← crc16_bit_byte_eq_tableStep c b hc (hb b (by simp))]
    exact foldl_tableStep_eq bs _ (crc16_bit_byte_lt _ _)
      (fun x hx => hb x (by simp [hx]))

@[simp] theorem logEv_proj (e : Ev) (s : St) :
    (logEv e s).trace = s.trace ++ [e] ∧ (logEv e s).lastError = s.lastError ∧
    (logEv e s).isSdhc = s.isSdhc ∧ (logEv e s).pos = s.pos :=
  ⟨rfl, rfl, rfl, rfl⟩

@[simp] theorem fill_trace (s : St) : (fill s).trace = s.trace ++ [.fill] := rfl

@[simp] theorem fill_lastError (s : St) : (fill s).lastError = s.lastError := rfl

@[simp] theorem fill_isSdhc (s : St) : (fill s).isSdhc = s.isSdhc := rfl

@[simp] theorem sendToken_trace (t : Nat) (s : St) :
    (sendToken t s).trace = s.trace ++ [.token t] := rfl

@[simp] theorem sendToken_lastError (t : Nat) (s : St) :
    (sendToken t s).lastError = s.lastError := rfl

@[simp] theorem sendToken_isSdhc (t : Nat) (s : St) :
    (sendToken t s).isSdhc = s.isSdhc := rfl

@[simp] theorem sendBlock_trace (b : List Nat) (s : St) :
    (sendBlock b s).trace = s.trace ++ [.dataOut b] := rfl

@[simp] theorem sendBlock_lastError (b : List Nat) (s : St) :
    (sendBlock b s).lastError = s.lastError := rfl

@[simp] theorem sendBlock_isSdhc (b : List Nat) (s : St) :
    (sendBlock b s).isSdhc = s.isSdhc := rfl

@[simp] theorem sendCrc_trace (c : Nat) (s : St) :
    (sendCrc c s).trace = s.trace ++ [.crcOut c] := rfl

@[simp] theorem sendCrc_lastError (c : Nat) (s : St) :
    (sendCrc c s).lastError = s.lastError := rfl

@[simp] theorem sendCrc_isSdhc (c : Nat) (s : St) :
    (sendCrc c s).isSdhc = s.isSdhc := rfl

@[simp] theorem xfer_trace (env : Env) (s : St) : (xfer env s).2.trace = s.trace := rfl

@[simp] theorem xfer_lastError (env : Env) (s : St) :
    (xfer env s).2.lastError = s.lastError := rfl

@[simp] theorem xfer_isSdhc (env : Env) (s : St) :
    (xfer env s).2.isSdhc = s.isSdhc := rfl

@[simp] theorem readBytes_trace (env : Env) (s : St) (n : Nat) :
    (readBytes env s n).2.trace = s.trace := rfl

@[simp] theorem readBytes_lastError (env : Env) (s : St) (n : Nat) :
    (readBytes env s n).2.lastError = s.lastError := rfl

@[simp] theorem readBytes_isSdhc (env : Env) (s : St) (n : Nat) :
    (readBytes env s n).2.isSdhc = s.isSdhc := rfl

@[simp] theorem wait_ready_trace (env : Env) (fuel : Nat) (s : St) :
    (wait_ready env fuel s).2.trace = s.trace ++ [.waitBusy] := rfl

@[simp] theorem wait_ready_lastError (env : Env) (fuel : Nat) (s : St) :
    (wait_ready env fuel s).2.lastError = s.lastError := rfl

@[simp] theorem wait_ready_isSdhc (env : Env) (fuel : Nat) (s : St) :
    (wait_ready env fuel s).2.isSdhc = s.isSdhc := rfl

theorem sd_cmd_fst (env : Env) (s : St) (c a : Nat) :
    (sd_cmd env s c a).1 = (pollR1 env (s.pos + 6) 8).1 := by
  simp only [sd_cmd, logEv]
  split <;> rfl

@[simp] theorem sd_cmd_trace (env : Env) (s : St) (c a : Nat) :
    (sd_cmd env s c a).2.trace = s.trace ++ [.cmdPacket c a] := by
  simp only [sd_cmd, logEv]
  split <;> rfl

@[simp] theorem sd_cmd_isSdhc (env : Env) (s : St) (c a : Nat) :
    (sd_cmd env s c a).2.isSdhc = s.isSdhc := by
  simp only [sd_cmd, logEv]
  split <;> rfl

theorem sd_cmd_lastError (env : Env) (s : St) (c a : Nat) :
    (sd_cmd env s c a).2.lastError =
      if (sd_cmd env s c a).1 &&& 0x08 ≠ 0 then .crcCmd else s.lastError := by
  rw [sd_cmd_fst]
  simp only [sd_cmd, logEv]
  split <;> simp_all

/-- When the R1 has no error bit at all, the CRC-error bit is clear too. -/
theorem land_fe_eight (r : Nat) (h : r &&& 0xFE = 0) : r &&& 0x08 = 0 := by
  have h8 : (0x08 : Nat) = 0xFE &&& 0x08 := rfl
  rw [h8, ← Nat.and_assoc, h, Nat.zero_and]

theorem sd_cmd_lastError_clean (env : Env) (s : St) (c a : Nat)
    (h : (sd_cmd env s c a).1 &&& 0xFE = 0) :
    (sd_cmd env s c a).2.lastError = s.lastError := by
  rw [sd_cmd_lastError]
  simp [land_fe_eight _ h]

@[simp] theorem sd_send_cmd12_trace (env : Env) (s : St) :
    (sd_send_cmd12 env s).2.trace = s.trace ++ [.cmdPacket 12 0, .stuff] := by
  unfold sd_send_cmd12
  simp [logEv]

@[simp] theorem sd_send_cmd12_lastError (env : Env) (s : St) :
    (sd_send_cmd12 env s).2.lastError = s.lastError := rfl

@[simp] theorem sd_send_cmd12_isSdhc (env : Env) (s : St) :
    (sd_send_cmd12 env s).2.isSdhc = s.isSdhc := rfl

theorem wait_for_data_token_trace (env : Env) :
    ∀ (fuel : Nat) (s : St), (wait_for_data_token env s fuel).2.trace = s.trace
  | 0, s => rfl
  | fuel + 1, s => by
    simp only [wait_for_data_token]
    by_cases h1 : env.miso s.pos % 256 = 254
    · simp [h1]
    · by_cases h2 : env.miso s.pos % 256 ≠ 255
      · by_cases h3 : env.miso s.pos % 256 &&& 8 ≠ 0 <;> simp [h1, h2, h3]
      · rw [if_neg h1, if_neg h2]
        exact wait_for_data_token_trace env fuel _

theorem wait_for_data_token_isSdhc (env : Env) :
    ∀ (fuel : Nat) (s : St), (wait_for_data_token env s fuel).2.isSdhc = s.isSdhc
  | 0, s => rfl
  | fuel + 1, s => by
    simp only [wait_for_data_token]
    by_cases h1 : env.miso s.pos % 256 = 254
    · simp [h1]
    · by_cases h2 : env.miso s.pos % 256 ≠ 255
      · by_cases h3 : env.miso s.pos % 256 &&& 8 ≠ 0 <;> simp [h1, h2, h3]
      · rw [if_neg h1, if_neg h2]
        exact wait_for_data_token_isSdhc env fuel _

theorem wait_for_data_token_true_lastError (env : Env) :
    ∀ (fuel : Nat) (s : St), (wait_for_data_token env s fuel).1 = true →
      (wait_for_data_token env s fuel).2.lastError = s.lastError
  | 0, s => by intro h; simp [wait_for_data_token] at h
  | fuel + 1, s => by
    intro h
    simp only [wait_for_data_token] at h ⊢
    by_cases h1 : env.miso s.pos % 256 = 254
    · simp [h1]
    · by_cases h2 : env.miso s.pos % 256 ≠ 255
      · by_cases h3 : env.miso s.pos % 256 &&& 8 ≠ 0 <;> simp [h1, h2, h3] at h
      · rw [if_neg h1, if_neg h2] at h ⊢
        exact wait_for_data_token_true_lastError env fuel _ h

theorem wait_for_data_token_false_lastError (env : Env) :
    ∀ (fuel : Nat) (s : St), (wait_for_data_token env s fuel).1 = false →
      (wait_for_data_token env s fuel).2.lastError = .timeout ∨
      (wait_for_data_token env s fuel).2.lastError = .param ∨
      (wait_for_data_token env s fuel).2.lastError = .card
  | 0, s => by intro _; left; rfl
  | fuel + 1, s => by
    intro h
    simp only [wait_for_data_token] at h ⊢
    by_cases h1 : env.miso s.pos % 256 = 254
    · simp [h1] at h
    · by_cases h2 : env.miso s.pos % 256 ≠ 255
      · by_cases h3 : env.miso s.pos % 256 &&& 8 ≠ 0 <;> simp [h1, h2, h3]
      · rw [if_neg h1, if_neg h2] at h ⊢
        exact wait_for_data_token_false_lastError env fuel _ h

theorem readBlockLoop_isSdhc (env : Env) (addr : Nat) :
    ∀ (fuel : Nat) (s : St), (readBlockLoop env addr fuel s).2.isSdhc = s.isSdhc
  | 0, _ => rfl
  | fuel + 1, s => by
    simp only [readBlockLoop]
    split
    · rw [readBlockLoop_isSdhc env addr fuel _]
      simp
    · split
      · rw [readBlockLoop_isSdhc env addr fuel _]
        simp [wait_for_data_token_isSdhc]
      · split
        · rw [readBlockLoop_isSdhc env addr fuel _]
          simp [wait_for_data_token_isSdhc]
        · simp [wait_for_data_token_isSdhc]

theorem sd_read_block_isSdhc (env : Env) (s : St) (sector : Nat) :
    (sd_read_block env s sector).2.isSdhc = s.isSdhc :=
  readBlockLoop_isSdhc env _ 3 s

theorem readBlocksLoop_isSdhc (env : Env) :
    ∀ (n : Nat) (s : St), (readBlocksLoop env n s).2.isSdhc = s.isSdhc
  | 0, _ => rfl
  | n + 1, s => by
    simp only [readBlocksLoop]
    split
    · simp [wait_for_data_token_isSdhc]
    · split
      · simp [wait_for_data_token_isSdhc]
      · rw [readBlocksLoop_isSdhc env n _]
        simp [wait_for_data_token_isSdhc]

theorem sd_read_blocks_isSdhc (env : Env) (s : St) (sector count : Nat) :
    (sd_read_blocks env s sector count).2.isSdhc = s.isSdhc := by
  simp only [sd_read_blocks]
  split
  · exact sd_read_block_isSdhc env s sector
  · repeat' split
    all_goals simp [readBlocksLoop_isSdhc]

theorem sd_write_block_isSdhc (env : Env) (s : St) (sector : Nat) (buf : List Nat) :
    (sd_write_block env s sector buf).2.isSdhc = s.isSdhc := by
  simp only [sd_write_block]
  split
  · simp
  · split
    · simp
    · split
      · simp
      · split
        · simp
        · split <;> simp

theorem writeBlocksPre_isSdhc (env : Env) (s : St) (sector count : Nat) :
    (writeBlocksPre env s sector count).2.isSdhc = s.isSdhc := by
  simp only [writeBlocksPre]
  split <;> simp

theorem writeBlocksLoop_isSdhc (env : Env) :
    ∀ (bs : List (List Nat)) (s : St), (writeBlocksLoop env bs s).2.isSdhc = s.isSdhc
  | [], _ => rfl
  | b :: bs, s => by
    simp only [writeBlocksLoop]
    split
    · simp
    · split
      · simp
      · rw [writeBlocksLoop_isSdhc env bs _]
        simp

theorem sd_write_blocks_isSdhc (env : Env) (s : St) (sector count : Nat)
    (bufs : List (List Nat)) :
    (sd_write_blocks env s sector count bufs).2.isSdhc = s.isSdhc := by
  simp only [sd_write_blocks]
  split
  · exact sd_write_block_isSdhc env s sector _
  · repeat' split
    all_goals simp [writeBlocksLoop_isSdhc, writeBlocksPre_isSdhc]

theorem sd_get_sector_count_isSdhc (env : Env) (s : St) :
    (sd_get_sector_count env s).2.isSdhc = s.isSdhc := by
  simp only [sd_get_sector_count]
  repeat' split
  all_goals simp [wait_for_data_token_isSdhc]

theorem readBlockLoop_true (env : Env) (addr : Nat) :
    ∀ (fuel : Nat) (s : St), (readBlockLoop env addr fuel s).1 = true →
      (readBlockLoop env addr fuel s).2.lastError = SdError.none
  | 0, s => by
    intro h
    simp [readBlockLoop] at h
  | fuel + 1, s => by
    intro h
    simp only [readBlockLoop] at h ⊢
    split at h
    next h1 =>
      rw [if_pos h1]
      exact readBlockLoop_true env addr fuel _ h
    next h1 =>
      rw [if_neg h1]
      split at h
      next h2 =>
        rw [if_pos h2]
        exact readBlockLoop_true env addr fuel _ h
      next h2 =>
        rw [if_neg h2]
        split at h
        next h3 =>
          rw [if_pos h3]
          exact readBlockLoop_true env addr fuel _ h
        next h3 =>
          rw [if_neg h3]
          have hw : (wait_for_data_token env
              (sd_cmd env { s with lastError := SdError.none } 17 addr).2
              env.readFuel).1 = true := by simpa using h2
          have hwl := wait_for_data_token_true_lastError env env.readFuel _ hw
          have hcl := sd_cmd_lastError_clean env { s with lastError := SdError.none }
            17 addr (not_ne_iff.mp h1)
          simp [hwl, hcl]

theorem readBlockLoop_false (env : Env) (addr : Nat) :
    ∀ (fuel : Nat) (s : St), (readBlockLoop env addr fuel s).1 = false →
      (readBlockLoop env addr fuel s).2.lastError ≠ SdError.none ∨
        (fuel = 0 ∧ (readBlockLoop env addr fuel s).2 = s)
  | 0, s => by
    intro _
    right
    exact ⟨rfl, rfl⟩
  | fuel + 1, s => by
    intro h
    simp only [readBlockLoop] at h ⊢
    split at h
    next h1 =>
      rw [if_pos h1]
      rcases readBlockLoop_false env addr fuel _ h with herr | ⟨h0, hs⟩
      · exact Or.inl herr
      · left
        rw [hs]
        simp
    next h1 =>
      rw [if_neg h1]
      split at h
      next h2 =>
        rw [if_pos h2]
        rcases readBlockLoop_false env addr fuel _ h with herr | ⟨h0, hs⟩
        · exact Or.inl herr
        · left
          rw [hs]
          rcases wait_for_data_token_false_lastError env env.readFuel _ h2 with
            he | he | he <;> simp [he]
      next h2 =>
        rw [if_neg h2]
        split at h
        next h3 =>
          rw [if_pos h3]
          rcases readBlockLoop_false env addr fuel _ h with herr | ⟨h0, hs⟩
          · exact Or.inl herr
          · left
            rw [hs]
            simp
        next h3 =>
          simp at h

theorem sd_read_block_true_iff (env : Env) (s : St) (sector : Nat) :
    (sd_read_block env s sector).1 = true ↔
      (sd_read_block env s sector).2.lastError = SdError.none := by
  constructor
  · exact fun h => readBlockLoop_true env _ 3 s h
  · intro hnone
    by_contra hne
    have hf : (sd_read_block env s sector).1 = false := by simpa using hne
    rcases readBlockLoop_false env _ 3 s hf with herr | ⟨h0, _⟩
    · exact herr hnone
    · simp at h0

theorem readBlocksLoop_true_lastError (env : Env) :
    ∀ (n : Nat) (s : St), (readBlocksLoop env n s).1 = true →
      (readBlocksLoop env n s).2.lastError = s.lastError
  | 0, s => fun _ => rfl
  | n + 1, s => by
    intro h
    simp only [readBlocksLoop] at h ⊢
    split at h
    next h1 => simp at h
    next h1 =>
      split at h
      next h2 => simp at h
      next h2 =>
        rw [if_neg h1, if_neg h2]
        rw [readBlocksLoop_true_lastError env n _ h]
        have hw : (wait_for_data_token env s env.readFuel).1 = true := by
          simpa using h1
        simp [wait_for_data_token_true_lastError env env.readFuel s hw]

theorem readBlocksLoop_false_lastError (env : Env) :
    ∀ (n : Nat) (s : St), (readBlocksLoop env n s).1 = false →
      (readBlocksLoop env n s).2.lastError = SdError.timeout ∨
      (readBlocksLoop env n s).2.lastError = SdError.param ∨
      (readBlocksLoop env n s).2.lastError = SdError.card ∨
      (readBlocksLoop env n s).2.lastError = SdError.crcData
  | 0, s => by
    intro h
    simp [readBlocksLoop] at h
  | n + 1, s => by
    intro h
    simp only [readBlocksLoop] at h ⊢
    split at h
    next h1 =>
      rw [if_pos h1]
      rcases wait_for_data_token_false_lastError env env.readFuel s h1 with
        he | he | he <;> simp [he]
    next h1 =>
      split at h
      next h2 =>
        rw [if_neg h1, if_pos h2]
        simp
      next h2 =>
        rw [if_neg h1, if_neg h2]
        exact readBlocksLoop_false_lastError env n _ h

theorem sd_read_blocks_true_iff (env : Env) (s : St) (sector count : Nat) :
    (sd_read_blocks env s sector count).1 = true ↔
      (sd_read_blocks env s sector count).2.lastError = SdError.none := by
  simp only [sd_read_blocks]
  split
  next hc => exact sd_read_block_true_iff env s sector
  next hc =>
    split
    next h1 =>
      constructor
      · intro h
        simp at h
      · intro h
        simp at h
    next h1 =>
      split
      next h2 =>
        constructor
        · intro h
          simp at h
        · intro h
          exfalso
          rcases readBlocksLoop_false_lastError env count _ h2 with
            he | he | he | he <;> simp [he] at h
      next h2 =>
        split
        next h3 =>
          constructor
          · intro h
            simp at h
          · intro h
            simp at h
        next h3 =>
          have hloop : (readBlocksLoop env count
              (sd_cmd env { s with lastError := SdError.none } 18
                (sdAddr s.isSdhc sector)).2).1 = true := by simpa using h2
          have hl := readBlocksLoop_true_lastError env count _ hloop
          have hcl := sd_cmd_lastError_clean env { s with lastError := SdError.none }
            18 (sdAddr s.isSdhc sector) (not_ne_iff.mp h1)
          constructor
          · intro _
            simp [hl, hcl]
          · intro _
            rfl

theorem sd_write_block_true_iff (env : Env) (s : St) (sector : Nat) (buf : List Nat) :
    (sd_write_block env s sector buf).1 = true ↔
      (sd_write_block env s sector buf).2.lastError = SdError.none := by
  simp only [sd_write_block]
  split
  next h1 =>
    constructor
    · intro h
      simp at h
    · intro h
      simp at h
  next h1 =>
    have hcl := sd_cmd_lastError_clean env { s with lastError := SdError.none }
      24 (sdAddr s.isSdhc sector) (not_ne_iff.mp h1)
    split
    next h2 =>
      constructor
      · intro h
        simp at h
      · intro h
        simp at h
    next h2 =>
      split
      next h3 =>
        constructor
        · intro h
          simp at h
        · intro h
          simp at h
      next h3 =>
        split
        next h4 =>
          constructor
          · intro h
            simp at h
          · intro h
            simp at h
        next h4 =>
          split
          next h5 =>
            constructor
            · intro _
              simp [hcl]
            · intro _
              rfl
          next h5 =>
            constructor
            · intro h
              simp at h
            · intro h
              simp at h

theorem writeBlocksLoop_true_lastError (env : Env) :
    ∀ (bs : List (List Nat)) (s : St), (writeBlocksLoop env bs s).1 = true →
      (writeBlocksLoop env bs s).2.lastError = s.lastError
  | [], s => fun _ => rfl
  | b :: bs, s => by
    intro h
    simp only [writeBlocksLoop] at h ⊢
    split at h
    next h1 => simp at h
    next h1 =>
      split at h
      next h2 => simp at h
      next h2 =>
        rw [if_neg h1, if_neg h2]
        rw [writeBlocksLoop_true_lastError env bs _ h]
        simp

theorem writeBlocksLoop_false_lastError (env : Env) :
    ∀ (bs : List (List Nat)) (s : St), (writeBlocksLoop env bs s).1 = false →
      (writeBlocksLoop env bs s).2.lastError = SdError.crcData ∨
      (writeBlocksLoop env bs s).2.lastError = SdError.writeReject ∨
      (writeBlocksLoop env bs s).2.lastError = SdError.timeout
  | [], s => by
    intro h
    simp [writeBlocksLoop] at h
  | b :: bs, s => by
    intro h
    simp only [writeBlocksLoop] at h ⊢
    split at h
    next h1 =>
      rw [if_pos h1]
      split
      next => simp
      next =>
        split
        next => simp
        next => simp
    next h1 =>
      split at h
      next h2 =>
        rw [if_neg h1, if_pos h2]
        simp
      next h2 =>
        rw [if_neg h1, if_neg h2]
        exact writeBlocksLoop_false_lastError env bs _ h

theorem sd_get_sector_count_some_iff (env : Env) (s : St) :
    (sd_get_sector_count env s).1.isSome = true ↔
      (sd_get_sector_count env s).2.lastError = SdError.none := by
  simp only [sd_get_sector_count]
  split
  next h1 =>
    constructor
    · intro h
      simp at h
    · intro h
      simp at h
  next h1 =>
    split
    next h2 =>
      constructor
      · intro h
        simp at h
      · intro h
        exfalso
        rcases wait_for_data_token_false_lastError env env.readFuel _ h2 with
          he | he | he <;> simp [he] at h
    next h2 =>
      split
      next h3 =>
        constructor
        · intro h
          simp at h
        · intro h
          simp at h
      next h3 =>
        have hw : (wait_for_data_token env
            (sd_cmd env { s with lastError := SdError.none } 9 0).2
            env.readFuel).1 = true := by simpa using h2
        have hwl := wait_for_data_token_true_lastError env env.readFuel _ hw
        have hcl := sd_cmd_lastError_clean env { s with lastError := SdError.none }
          9 0 (not_ne_iff.mp h1)
        constructor
        · intro _
          simp [hwl, hcl]
        · intro _
          rfl

theorem readBlocksLoop_trace (env : Env) :
    ∀ (n : Nat) (s : St), ∃ t,
      (readBlocksLoop env n s).2.trace = s.trace ++ t ∧
      ((readBlocksLoop env n s).1 = true →
        t.countP (isCmd 12) = 0 ∧ t.countP isStuffEv = 0) ∧
      ((readBlocksLoop env n s).1 = false →
        t.countP (isCmd 12) = 1 ∧ t.countP isStuffEv = 1)
  | 0, s => ⟨[], by simp [readBlocksLoop], by simp [readBlocksLoop], by
      simp [readBlocksLoop]⟩
  | n + 1, s => by
    simp only [readBlocksLoop]
    split
    next h1 =>
      refine ⟨[.cmdPacket 12 0, .stuff, .waitBusy, .fill], ?_, ?_, ?_⟩
      · simp [wait_for_data_token_trace]
      · intro h
        simp at h
      · intro _
        constructor <;> rfl
    next h1 =>
      split
      next h2 =>
        refine ⟨[.cmdPacket 12 0, .stuff, .waitBusy, .fill], ?_, ?_, ?_⟩
        · simp [wait_for_data_token_trace]
        · intro h
          simp at h
        · intro _
          constructor <;> rfl
      next h2 =>
        obtain ⟨t, ht, htt, htf⟩ := readBlocksLoop_trace env n
          (xfer env (xfer env (readBytes env
            (wait_for_data_token env s env.readFuel).2 512).2).2).2
        refine ⟨t, ?_, htt, htf⟩
        rw [ht]
        simp [wait_for_data_token_trace]

theorem readBlockLoop_cmd17_count (env : Env) (addr : Nat) :
    ∀ (fuel : Nat) (s : St),
      (readBlockLoop env addr fuel s).2.trace.countP (isCmd 17) ≤
        s.trace.countP (isCmd 17) + fuel ∧
      ((readBlockLoop env addr fuel s).1 = false →
        (readBlockLoop env addr fuel s).2.trace.countP (isCmd 17) =
          s.trace.countP (isCmd 17) + fuel)
  | 0, s => ⟨Nat.le_refl _, fun _ => rfl⟩
  | fuel + 1, s => by
    simp only [readBlockLoop]
    split
    next h1 =>
      obtain ⟨hle, heq⟩ := readBlockLoop_cmd17_count env addr fuel
        { fill (sd_cmd env { s with lastError := SdError.none } 17 addr).2 with
          lastError := SdError.cmd }
      constructor
      · refine hle.trans ?_
        simp [List.countP_append, isCmd]
        omega
      · intro h
        rw [heq h]
        simp [List.countP_append, isCmd]
        omega
    next h1 =>
      split
      next h2 =>
        obtain ⟨hle, heq⟩ := readBlockLoop_cmd17_count env addr fuel
          (fill (wait_for_data_token env
            (sd_cmd env { s with lastError := SdError.none } 17 addr).2
            env.readFuel).2)
        constructor
        · refine hle.trans ?_
          simp [List.countP_append, isCmd, wait_for_data_token_trace]
          omega
        · intro h
          rw [heq h]
          simp [List.countP_append, isCmd, wait_for_data_token_trace]
          omega
      next h2 =>
        split
        next h3 =>
          obtain ⟨hle, heq⟩ := readBlockLoop_cmd17_count env addr fuel _
          constructor
          · refine hle.trans ?_
            simp [List.countP_append, isCmd, wait_for_data_token_trace]
            omega
          · intro h
            rw [heq h]
            simp [List.countP_append, isCmd, wait_for_data_token_trace]
            omega
        next h3 =>
          constructor
          · simp [List.countP_append, isCmd, wait_for_data_token_trace]
          · intro h
            simp at h

theorem writeBlocksPre_trace (env : Env) (s : St) (sector count : Nat) :
    ∃ u, (writeBlocksPre env s sector count).2.trace = s.trace ++ u ∧
      u.countP isStopTran = 0 := by
  simp only [writeBlocksPre]
  split
  next h1 =>
    refine ⟨[.cmdPacket 55 0, .fill, .cmdPacket 25 (sdAddr s.isSdhc sector)], ?_, rfl⟩
    simp
  next h1 =>
    refine ⟨[.cmdPacket 55 0, .fill, .cmdPacket 23 count, .fill,
      .cmdPacket 25 (sdAddr s.isSdhc sector)], ?_, rfl⟩
    simp

theorem writeBlocksLoop_trace (env : Env) :
    ∀ (bs : List (List Nat)) (s : St), ∃ t,
      (writeBlocksLoop env bs s).2.trace = s.trace ++ t ∧
      ((writeBlocksLoop env bs s).1 = true → t.countP isStopTran = 0) ∧
      ((writeBlocksLoop env bs s).1 = false → ∃ t0,
        t = t0 ++ [.token 0xFD, .fill, .waitBusy, .fill] ∧
        t0.countP isStopTran = 0)
  | [], s => ⟨[], by simp [writeBlocksLoop], by simp [writeBlocksLoop], by
      simp [writeBlocksLoop]⟩
  | b :: bs, s => by
    simp only [writeBlocksLoop]
    split
    next h1 =>
      refine ⟨[.fill, .token 0xFC, .dataOut b, .crcOut (crc16_ccitt b),
        .token 0xFD, .fill, .waitBusy, .fill], ?_, ?_, ?_⟩
      · split <;> simp
      · intro h
        split at h <;> simp at h
      · intro _
        refine ⟨[.fill, .token 0xFC, .dataOut b, .crcOut (crc16_ccitt b)], ?_, rfl⟩
        rfl
    next h1 =>
      split
      next h2 =>
        refine ⟨[.fill, .token 0xFC, .dataOut b, .crcOut (crc16_ccitt b), .waitBusy,
          .token 0xFD, .fill, .waitBusy, .fill], ?_, ?_, ?_⟩
        · simp
        · intro h
          simp at h
        · intro _
          refine ⟨[.fill, .token 0xFC, .dataOut b, .crcOut (crc16_ccitt b),
            .waitBusy], ?_, rfl⟩
          rfl
      next h2 =>
        obtain ⟨t, ht, htt, htf⟩ := writeBlocksLoop_trace env bs
          (wait_ready env env.readyWriteFuel
            (xfer env (sendCrc (crc16_ccitt b)
              (sendBlock b (sendToken 0xFC (fill s))))).2).2
        refine ⟨[.fill, .token 0xFC, .dataOut b, .crcOut (crc16_ccitt b),
          .waitBusy] ++ t, ?_, ?_, ?_⟩
        · rw [ht]
          simp
        · intro h
          rw [List.countP_append]
          rw [htt h]
          rfl
        · intro h
          obtain ⟨t0, ht0, hc0⟩ := htf h
          refine ⟨[.fill, .token 0xFC, .dataOut b, .crcOut (crc16_ccitt b),
            .waitBusy] ++ t0, ?_, ?_⟩
          · rw [ht0]
            simp
          · rw [List.countP_append, hc0]
            rfl

theorem readBlockLoop_cmds (env : Env) (addr : Nat) :
    ∀ (fuel : Nat) (s : St), ∃ t,
      (readBlockLoop env addr fuel s).2.trace = s.trace ++ t ∧
      ∀ c x, Ev.cmdPacket c x ∈ t → c = 17 ∧ x = addr
  | 0, s => ⟨[], by simp [readBlockLoop], by simp⟩
  | fuel + 1, s => by
    simp only [readBlockLoop]
    split
    next h1 =>
      obtain ⟨t, ht, hp⟩ := readBlockLoop_cmds env addr fuel _
      refine ⟨[.cmdPacket 17 addr, .fill] ++ t, ?_, ?_⟩
      · rw [ht]
        simp
      · intro c x hm
        simp only [List.cons_append, List.nil_append, List.mem_cons,
          List.mem_append] at hm
        rcases hm with h | h | h
        · simp at h
          exact ⟨h.1, h.2⟩
        · simp at h
        · exact hp c x h
    next h1 =>
      split
      next h2 =>
        obtain ⟨t, ht, hp⟩ := readBlockLoop_cmds env addr fuel _
        refine ⟨[.cmdPacket 17 addr, .fill] ++ t, ?_, ?_⟩
        · rw [ht]
          simp [wait_for_data_token_trace]
        · intro c x hm
          simp only [List.cons_append, List.nil_append, List.mem_cons,
            List.mem_append] at hm
          rcases hm with h | h | h
          · simp at h
            exact ⟨h.1, h.2⟩
          · simp at h
          · exact hp c x h
      next h2 =>
        split
        next h3 =>
          obtain ⟨t, ht, hp⟩ := readBlockLoop_cmds env addr fuel _
          refine ⟨[.cmdPacket 17 addr, .fill] ++ t, ?_, ?_⟩
          · rw [ht]
            simp [wait_for_data_token_trace]
          · intro c x hm
            simp only [List.cons_append, List.nil_append, List.mem_cons,
              List.mem_append] at hm
            rcases hm with h | h | h
            · simp at h
              exact ⟨h.1, h.2⟩
            · simp at h
            · exact hp c x h
        next h3 =>
          refine ⟨[.cmdPacket 17 addr, .fill], ?_, ?_⟩
          · simp [wait_for_data_token_trace]
          · intro c x hm
            simp only [List.mem_cons, List.not_mem_nil, or_false] at hm
            rcases hm with h | h
            · simp at h
              exact ⟨h.1, h.2⟩
            · simp at h

theorem readBlocksLoop_cmds (env : Env) :
    ∀ (n : Nat) (s : St), ∃ t,
      (readBlocksLoop env n s).2.trace = s.trace ++ t ∧
      ∀ c x, Ev.cmdPacket c x ∈ t → c = 12 ∧ x = 0
  | 0, s => ⟨[], by simp [readBlocksLoop], by simp⟩
  | n + 1, s => by
    simp only [readBlocksLoop]
    split
    next h1 =>
      refine ⟨[.cmdPacket 12 0, .stuff, .waitBusy, .fill], ?_, ?_⟩
      · simp [wait_for_data_token_trace]
      · intro c x hm
        simp only [List.mem_cons, List.not_mem_nil, or_false] at hm
        rcases hm with h | h | h | h <;> simp at h
        exact ⟨h.1, h.2⟩
    next h1 =>
      split
      next h2 =>
        refine ⟨[.cmdPacket 12 0, .stuff, .waitBusy, .fill], ?_, ?_⟩
        · simp [wait_for_data_token_trace]
        · intro c x hm
          simp only [List.mem_cons, List.not_mem_nil, or_false] at hm
          rcases hm with h | h | h | h <;> simp at h
          exact ⟨h.1, h.2⟩
      next h2 =>
        obtain ⟨t, ht, hp⟩ := readBlocksLoop_cmds env n _
        refine ⟨t, ?_, hp⟩
        rw [ht]
        simp [wait_for_data_token_trace]

theorem writeBlocksLoop_cmds (env : Env) :
    ∀ (bs : List (List Nat)) (s : St), ∃ t,
      (writeBlocksLoop env bs s).2.trace = s.trace ++ t ∧
      ∀ c x, Ev.cmdPacket c x ∈ t → False
  | [], s => ⟨[], by simp [writeBlocksLoop], by simp⟩
  | b :: bs, s => by
    simp only [writeBlocksLoop]
    split
    next h1 =>
      refine ⟨[.fill, .token 0xFC, .dataOut b, .crcOut (crc16_ccitt b),
        .token 0xFD, .fill, .waitBusy, .fill], ?_, ?_⟩
      · split <;> simp
      · intro c x hm
        simp at hm
    next h1 =>
      split
      next h2 =>
        refine ⟨[.fill, .token 0xFC, .dataOut b, .crcOut (crc16_ccitt b),
          .waitBusy, .token 0xFD, .fill, .waitBusy, .fill], ?_, ?_⟩
        · simp
        · intro c x hm
          simp at hm
      next h2 =>
        obtain ⟨t, ht, hp⟩ := writeBlocksLoop_cmds env bs _
        refine ⟨[.fill, .token 0xFC, .dataOut b, .crcOut (crc16_ccitt b),
          .waitBusy] ++ t, ?_, ?_⟩
        · rw [ht]
          simp
        · intro c x hm
          simp only [List.cons_append, List.nil_append, List.mem_cons,
            List.mem_append] at hm
          rcases hm with h | h | h | h | h | h <;> first
            | simp at h
            | exact hp c x h

theorem writeBlocksPre_cmds (env : Env) (s : St) (sector count : Nat) :
    ∃ u, (writeBlocksPre env s sector count).2.trace = s.trace ++ u ∧
      ∀ c x, Ev.cmdPacket c x ∈ u →
        (c = 55 ∧ x = 0) ∨ (c = 23 ∧ x = count) ∨
        (c = 25 ∧ x = sdAddr s.isSdhc sector) := by
  simp only [writeBlocksPre]
  split
  next h1 =>
    refine ⟨[.cmdPacket 55 0, .fill, .cmdPacket 25 (sdAddr s.isSdhc sector)], ?_, ?_⟩
    · simp
    · intro c x hm
      simp only [List.mem_cons, List.not_mem_nil, or_false] at hm
      rcases hm with h | h | h
      · simp at h
        exact Or.inl ⟨h.1, h.2⟩
      · simp at h
      · simp at h
        exact Or.inr (Or.inr ⟨h.1, h.2⟩)
  next h1 =>
    refine ⟨[.cmdPacket 55 0, .fill, .cmdPacket 23 count, .fill,
      .cmdPacket 25 (sdAddr s.isSdhc sector)], ?_, ?_⟩
    · simp
    · intro c x hm
      simp only [List.mem_cons, List.not_mem_nil, or_false] at hm
      rcases hm with h | h | h | h | h
      · simp at h
        exact Or.inl ⟨h.1, h.2⟩
      · simp at h
      · simp at h
        exact Or.inr (Or.inl ⟨h.1, h.2⟩)
      · simp at h
      · simp at h
        exact Or.inr (Or.inr ⟨h.1, h.2⟩)

theorem sd_read_block_cmds (env : Env) (s : St) (sector : Nat) :
    ∃ t, (sd_read_block env s sector).2.trace = s.trace ++ t ∧
      ∀ c x, Ev.cmdPacket c x ∈ t → c = 17 ∧ x = sdAddr s.isSdhc sector :=
  readBlockLoop_cmds env _ 3 s

theorem sd_read_blocks_cmds (env : Env) (s : St) (sector count : Nat) :
    ∃ t, (sd_read_blocks env s sector count).2.trace = s.trace ++ t ∧
      ∀ c x, Ev.cmdPacket c x ∈ t →
        (c = 17 ∧ x = sdAddr s.isSdhc sector) ∨
        (c = 18 ∧ x = sdAddr s.isSdhc sector) ∨ (c = 12 ∧ x = 0) := by
  simp only [sd_read_blocks]
  split
  next hc =>
    obtain ⟨t, ht, hp⟩ := sd_read_block_cmds env s sector
    exact ⟨t, ht, fun c x hm => Or.inl (hp c x hm)⟩
  next hc =>
    split
    next h1 =>
      refine ⟨[.cmdPacket 18 (sdAddr s.isSdhc sector), .fill], ?_, ?_⟩
      · simp
      · intro c x hm
        simp only [List.mem_cons, List.not_mem_nil, or_false] at hm
        rcases hm with h | h
        · simp at h
          exact Or.inr (Or.inl ⟨h.1, h.2⟩)
        · simp at h
    next h1 =>
      obtain ⟨t, ht, hp⟩ := readBlocksLoop_cmds env count
        (sd_cmd env { s with lastError := SdError.none } 18
          (sdAddr s.isSdhc sector)).2
      split
      next h2 =>
        refine ⟨[.cmdPacket 18 (sdAddr s.isSdhc sector)] ++ t, ?_, ?_⟩
        · rw [ht]
          simp
        · intro c x hm
          simp only [List.cons_append, List.nil_append, List.mem_cons] at hm
          rcases hm with h | h
          · simp at h
            exact Or.inr (Or.inl ⟨h.1, h.2⟩)
          · exact Or.inr (Or.inr (hp c x h))
      next h2 =>
        have htail : ∀ c x,
            Ev.cmdPacket c x ∈ t ++ [Ev.cmdPacket 12 0, Ev.stuff, Ev.waitBusy,
              Ev.fill] →
            (c = 17 ∧ x = sdAddr s.isSdhc sector) ∨
            (c = 18 ∧ x = sdAddr s.isSdhc sector) ∨ (c = 12 ∧ x = 0) := by
          intro c x hm
          simp only [List.mem_append, List.mem_cons, List.not_mem_nil,
            or_false] at hm
          rcases hm with h | h | h | h | h
          · exact Or.inr (Or.inr (hp c x h))
          · simp at h
            exact Or.inr (Or.inr ⟨h.1, h.2⟩)
          · simp at h
          · simp at h
          · simp at h
        split
        next h3 =>
          refine ⟨[.cmdPacket 18 (sdAddr s.isSdhc sector)] ++
            (t ++ [.cmdPacket 12 0, .stuff, .waitBusy, .fill]), ?_, ?_⟩
          · simp [ht]
          · intro c x hm
            simp only [List.cons_append, List.nil_append, List.mem_cons] at hm
            rcases hm with h | h
            · simp at h
              exact Or.inr (Or.inl ⟨h.1, h.2⟩)
            · exact htail c x h
        next h3 =>
          refine ⟨[.cmdPacket 18 (sdAddr s.isSdhc sector)] ++
            (t ++ [.cmdPacket 12 0, .stuff, .waitBusy, .fill]), ?_, ?_⟩
          · simp [ht]
          · intro c x hm
            simp only [List.cons_append, List.nil_append, List.mem_cons] at hm
            rcases hm with h | h
            · simp at h
              exact Or.inr (Or.inl ⟨h.1, h.2⟩)
            · exact htail c x h

theorem sd_write_block_cmds (env : Env) (s : St) (sector : Nat) (buf : List Nat) :
    ∃ t, (sd_write_block env s sector buf).2.trace = s.trace ++ t ∧
      ∀ c x, Ev.cmdPacket c x ∈ t → c = 24 ∧ x = sdAddr s.isSdhc sector := by
  simp only [sd_write_block]
  have hbase : ∀ c x,
      Ev.cmdPacket c x ∈ [Ev.cmdPacket 24 (sdAddr s.isSdhc sector), Ev.fill] →
      c = 24 ∧ x = sdAddr s.isSdhc sector := by
    intro c x hm
    simp only [List.mem_cons, List.not_mem_nil, or_false] at hm
    rcases hm with h | h
    · simp at h
      exact ⟨h.1, h.2⟩
    · simp at h
  have hmid : ∀ c x,
      Ev.cmdPacket c x ∈ [Ev.cmdPacket 24 (sdAddr s.isSdhc sector), Ev.fill,
        Ev.token 0xFE, Ev.dataOut buf, Ev.crcOut (crc16_ccitt buf), Ev.fill] →
      c = 24 ∧ x = sdAddr s.isSdhc sector := by
    intro c x hm
    simp only [List.mem_cons, List.not_mem_nil, or_false] at hm
    rcases hm with h | h | h | h | h | h
    · simp at h
      exact ⟨h.1, h.2⟩
    · simp at h
    · simp at h
    · simp at h
    · simp at h
    · simp at h
  have hfull : ∀ c x,
      Ev.cmdPacket c x ∈ [Ev.cmdPacket 24 (sdAddr s.isSdhc sector), Ev.fill,
        Ev.token 0xFE, Ev.dataOut buf, Ev.crcOut (crc16_ccitt buf), Ev.fill,
        Ev.waitBusy, Ev.fill] →
      c = 24 ∧ x = sdAddr s.isSdhc sector := by
    intro c x hm
    simp only [List.mem_cons, List.not_mem_nil, or_false] at hm
    rcases hm with h | h | h | h | h | h | h | h
    · simp at h
      exact ⟨h.1, h.2⟩
    · simp at h
    · simp at h
    · simp at h
    · simp at h
    · simp at h
    · simp at h
    · simp at h
  split
  next h1 => exact ⟨_, by simp, hbase⟩
  next h1 =>
    split
    next h2 => exact ⟨_, by simp, hmid⟩
    next h2 =>
      split
      next h3 => exact ⟨_, by simp, hmid⟩
      next h3 =>
        split
        next h4 => exact ⟨_, by simp, hmid⟩
        next h4 =>
          split
          next h5 => exact ⟨_, by simp, hfull⟩
          next h5 => exact ⟨_, by simp, hfull⟩

theorem sd_write_blocks_cmds (env : Env) (s : St) (sector count : Nat)
    (bufs : List (List Nat)) :
    ∃ t, (sd_write_blocks env s sector count bufs).2.trace = s.trace ++ t ∧
      ∀ c x, Ev.cmdPacket c x ∈ t →
        (c = 24 ∧ x = sdAddr s.isSdhc sector) ∨ (c = 55 ∧ x = 0) ∨
        (c = 23 ∧ x = count) ∨ (c = 25 ∧ x = sdAddr s.isSdhc sector) := by
  simp only [sd_write_blocks]
  split
  next hc =>
    obtain ⟨t, ht, hp⟩ := sd_write_block_cmds env s sector (bufs.headD [])
    exact ⟨t, ht, fun c x hm => Or.inl (hp c x hm)⟩
  next hc =>
    obtain ⟨u, hu, hpu⟩ := writeBlocksPre_cmds env s sector count
    have hpre : ∀ c x, Ev.cmdPacket c x ∈ u →
        (c = 24 ∧ x = sdAddr s.isSdhc sector) ∨ (c = 55 ∧ x = 0) ∨
        (c = 23 ∧ x = count) ∨ (c = 25 ∧ x = sdAddr s.isSdhc sector) := by
      intro c x hm
      rcases hpu c x hm with h | h | h
      · exact Or.inr (Or.inl h)
      · exact Or.inr (Or.inr (Or.inl h))
      · exact Or.inr (Or.inr (Or.inr h))
    split
    next h1 =>
      refine ⟨u ++ [.fill], ?_, ?_⟩
      · simp [hu]
      · intro c x hm
        simp only [List.mem_append, List.mem_cons, List.not_mem_nil,
          or_false] at hm
        rcases hm with h | h
        · exact hpre c x h
        · simp at h
    next h1 =>
      obtain ⟨t, ht, hpt⟩ := writeBlocksLoop_cmds env
        ((List.range count).map (fun i => bufs.getD i []))
        (writeBlocksPre env s sector count).2
      split
      next h2 =>
        refine ⟨u ++ t, ?_, ?_⟩
        · rw [ht, hu, List.append_assoc]
        · intro c x hm
          simp only [List.mem_append] at hm
          rcases hm with h | h
          · exact hpre c x h
          · exact absurd h (by intro hh; exact hpt c x hh)
      next h2 =>
        have htail : ∀ c x,
            Ev.cmdPacket c x ∈ u ++ (t ++ [Ev.token 0xFD, Ev.fill, Ev.waitBusy,
              Ev.fill]) →
            (c = 24 ∧ x = sdAddr s.isSdhc sector) ∨ (c = 55 ∧ x = 0) ∨
            (c = 23 ∧ x = count) ∨ (c = 25 ∧ x = sdAddr s.isSdhc sector) := by
          intro c x hm
          simp only [List.mem_append, List.mem_cons, List.not_mem_nil,
            or_false] at hm
          rcases hm with h | h | h | h | h | h
          · exact hpre c x h
          · exact absurd h (by intro hh; exact hpt c x hh)
          · simp at h
          · simp at h
          · simp at h
          · simp at h
        split
        next h3 =>
          refine ⟨u ++ (t ++ [.token 0xFD, .fill, .waitBusy, .fill]), ?_, htail⟩
          simp only [fill_trace, wait_ready_trace, sendToken_trace]
          rw [ht, hu]
          simp [List.append_assoc]
        next h3 =>
          refine ⟨u ++ (t ++ [.token 0xFD, .fill, .waitBusy, .fill]), ?_, htail⟩
          simp only [fill_trace, wait_ready_trace, sendToken_trace]
          rw [ht, hu]
          simp [List.append_assoc]

/-- C6: the table-driven crc16_ccitt computes exactly the CRC-16/CCITT defined
bit-by-bit from the polynomial x^16 + x^12 + x^5 + 1 with initial value 0:
every crc16_table entry equals the bitwise CRC of its index byte, and the
table-driven fold agrees with the naive bit-serial computation on every byte
sequence. -/
theorem C6_crc16_table_driven_equals_bitwise :
    (∀ bs : List Nat, (∀ b ∈ bs, b < 256) → crc16_ccitt bs = crc16_bitwise bs) ∧
    (∀ i : Fin 256, crc16_table.getD i.val 0 = crc16_bitwise [i.val]) := by
  constructor
  · intro bs h
    exact foldl_tableStep_eq bs 0 (by norm_num) h
  · decide

/-- Witness for C6 at the concrete byte sequence [0x12, 0x34, 0xAB]. -/
theorem C6_crc16_table_driven_equals_bitwise_witness :
    (∀ b ∈ [0x12, 0x34, 0xAB], b < 256) ∧
    crc16_ccitt [0x12, 0x34, 0xAB] = crc16_bitwise [0x12, 0x34, 0xAB] :=
  ⟨by decide, C6_crc16_table_driven_equals_bitwise.1 [0x12, 0x34, 0xAB] (by decide)⟩

/-- C9: the card-kind state is_sdhc is left unchanged by every public
operation other than sd_card_init: the reads, the writes,
sd_get_sector_count, and the pure accessor sd_is_sdhc (sd_card_present and
sd_last_error take no driver state and return pure values). -/
theorem C9_is_sdhc_written_only_by_init (env : Env) (s : St) (sector count : Nat)
    (buf : List Nat) (bufs : List (List Nat)) :
    (sd_read_block env s sector).2.isSdhc = s.isSdhc ∧
    (sd_read_blocks env s sector count).2.isSdhc = s.isSdhc ∧
    (sd_write_block env s sector buf).2.isSdhc = s.isSdhc ∧
    (sd_write_blocks env s sector count bufs).2.isSdhc = s.isSdhc ∧
    (sd_get_sector_count env s).2.isSdhc = s.isSdhc ∧
    sd_is_sdhc s = s.isSdhc :=
  ⟨sd_read_block_isSdhc env s sector, sd_read_blocks_isSdhc env s sector count,
   sd_write_block_isSdhc env s sector buf,
   sd_write_blocks_isSdhc env s sector count bufs,
   sd_get_sector_count_isSdhc env s, rfl⟩

/-- C7 counterexample: the ECC-failure error token 0x04 makes
wait_for_data_token record SD_ERR_CARD, not the CrcData error the claim
assigns to the ECC bit. -/
theorem C7_ecc_token_not_crcdata :
    (wait_for_data_token envEcc (mkSt 0 SdError.none true) 8).1 = false ∧
    (wait_for_data_token envEcc (mkSt 0 SdError.none true) 8).2.lastError =
      SdError.card ∧
    SdError.card ≠ SdError.crcData := by
  decide

/-- C7 (amended): while polling for a read start token, any received byte
other than 0xFE and 0xFF makes the engine fail, with SD_ERR_PARAM when the
out-of-range bit (0x08) is set and with the single code SD_ERR_CARD for
every other error token (ECC failure, card controller, general error). -/
theorem C7_error_token_mapping (env : Env) (s : St) (fuel : Nat) (hf : 0 < fuel)
    (hne : env.miso s.pos % 256 ≠ 0xFE) (hnf : env.miso s.pos % 256 ≠ 0xFF) :
    (wait_for_data_token env s fuel).1 = false ∧
    (wait_for_data_token env s fuel).2.lastError =
      (if env.miso s.pos % 256 &&& 0x08 ≠ 0 then SdError.param else SdError.card) := by
  cases fuel with
  | zero => simp at hf
  | succ n =>
    simp only [wait_for_data_token]
    rw [if_neg hne, if_pos hnf]
    split
    next h => exact ⟨rfl, rfl⟩
    next h => exact ⟨rfl, rfl⟩

/-- Witness for C7 at the ECC-failure token 0x04. -/
theorem C7_error_token_mapping_witness :
    0 < 8 ∧ envEcc.miso 0 % 256 ≠ 0xFE ∧ envEcc.miso 0 % 256 ≠ 0xFF ∧
    ((wait_for_data_token envEcc (mkSt 0 SdError.none true) 8).1 = false ∧
     (wait_for_data_token envEcc (mkSt 0 SdError.none true) 8).2.lastError =
       (if envEcc.miso 0 % 256 &&& 0x08 ≠ 0 then SdError.param else SdError.card)) :=
  ⟨by decide, by decide, by decide,
   C7_error_token_mapping envEcc (mkSt 0 SdError.none true) 8 (by decide)
     (by decide) (by decide)⟩

/-- C5 counterexample: on a card whose first CMD17 R1 reports an
illegal-command error (0x04 — a hard command error, not a transient one)
and whose second attempt succeeds, sd_read_block retries and returns true
with two CMD17 packets sent — the command error was not surfaced
immediately. -/
theorem C5_cmd_error_is_retried :
    (sd_read_block envRetry (mkSt 0 SdError.none true) 0).1 = true ∧
    (sd_read_block envRetry (mkSt 0 SdError.none true) 0).2.trace.countP
      (isCmd 17) = 2 := by
  decide

/-- C5 (amended): sd_read_block bounds its attempts by SD_READ_RETRIES = 3
(at most 3 CMD17 packets are sent), and it retries on every failed attempt
regardless of the error kind, so a false return means all 3 attempts were
used. -/
theorem C5_read_retry_bound (env : Env) (p : Nat) (e : SdError) (b : Bool)
    (sector : Nat) :
    (sd_read_block env (mkSt p e b) sector).2.trace.countP (isCmd 17) ≤ 3 ∧
    ((sd_read_block env (mkSt p e b) sector).1 = false →
      (sd_read_block env (mkSt p e b) sector).2.trace.countP (isCmd 17) = 3) := by
  obtain ⟨hle, heq⟩ := readBlockLoop_cmd17_count env
    (sdAddr (mkSt p e b).isSdhc sector) 3 (mkSt p e b)
  constructor
  · simpa [mkSt, sd_read_block] using hle
  · intro h
    have h2 := heq (by simpa [sd_read_block] using h)
    simpa [mkSt, sd_read_block] using h2

/-- Witness for C5 on a card whose every attempt fails: the read returns
false after exactly 3 CMD17 packets. -/
theorem C5_read_retry_bound_witness :
    (sd_read_block envFail (mkSt 0 SdError.none true) 0).1 = false ∧
    (sd_read_block envFail (mkSt 0 SdError.none true) 0).2.trace.countP
      (isCmd 17) = 3 :=
  ⟨by decide, (C5_read_retry_bound envFail 0 SdError.none true 0).2 (by decide)⟩

/-- C1: diskio.c compares the boolean results of the SD driver against the
enumerator SD_ERR_NONE (= 0), so every adapter operation reports the
opposite of the driver outcome: disk_initialize returns STA_NOINIT exactly
when sd_card_init succeeded and 0 (ok) when it failed, and disk_read maps a
successful sd_read_blocks to RES_ERROR. -/
theorem C1_adapter_inverts_driver_results :
    (sd_card_init envInitOk (mkSt 0 SdError.none false)).1 = true ∧
    (FatFsDisk.diskInit envInitOk (mkSt 0 SdError.none false) 0).1 =
      FatFsDisk.STA_NOINIT ∧
    (sd_card_init envNoCard (mkSt 0 SdError.none false)).1 = false ∧
    (FatFsDisk.diskInit envNoCard (mkSt 0 SdError.none false) 0).1 = 0 ∧
    (sd_read_blocks envReadOk (mkSt 0 SdError.none true) 0 1).1 = true ∧
    (FatFsDisk.diskRead envReadOk (mkSt 0 SdError.none true) 0 0 1).1 =
      FatFsDisk.RES_ERROR := by
  refine ⟨by decide, by decide, by decide, by decide, by decide, by decide⟩

/-- C3: for count > 1, once CMD18 was accepted, every execution path of
sd_read_blocks — full completion, token-abort, CRC-abort — sends exactly
one STOP_TRANSMISSION: one CMD12 packet and one stuff byte appear in the
trace; and when the block loop detected an error (the final error code is
one of the loop-detected ones: crcData, timeout, param, card), the function
returns failure even if the STOP_TRANSMISSION response itself was clean. -/
theorem C3_read_stop_transmission_exactly_once (env : Env) (p : Nat)
    (e : SdError) (b : Bool) (sector count : Nat) (hcount : 1 < count)
    (hacc : (sd_cmd env (mkSt p SdError.none b) 18 (sdAddr b sector)).1 &&&
      0xFE = 0) :
    (sd_read_blocks env (mkSt p e b) sector count).2.trace.countP (isCmd 12) = 1 ∧
    (sd_read_blocks env (mkSt p e b) sector count).2.trace.countP isStuffEv = 1 ∧
    (((sd_read_blocks env (mkSt p e b) sector count).2.lastError = SdError.crcData ∨
      (sd_read_blocks env (mkSt p e b) sector count).2.lastError = SdError.timeout ∨
      (sd_read_blocks env (mkSt p e b) sector count).2.lastError = SdError.param ∨
      (sd_read_blocks env (mkSt p e b) sector count).2.lastError = SdError.card) →
      (sd_read_blocks env (mkSt p e b) sector count).1 = false) := by
  have hc1 : count ≠ 1 := by omega
  have hacc2 : (sd_cmd env { mkSt p e b with lastError := SdError.none } 18
      (sdAddr (mkSt p e b).isSdhc sector)).1 &&& 0xFE = 0 := by
    simpa [mkSt] using hacc
  simp only [sd_read_blocks]
  rw [if_neg hc1, if_neg (not_ne_iff.mpr hacc2)]
  obtain ⟨t, ht, htt, htf⟩ := readBlocksLoop_trace env count
    (sd_cmd env { mkSt p e b with lastError := SdError.none } 18
      (sdAddr (mkSt p e b).isSdhc sector)).2
  by_cases hl : (readBlocksLoop env count
      (sd_cmd env { mkSt p e b with lastError := SdError.none } 18
        (sdAddr (mkSt p e b).isSdhc sector)).2).1 = false
  · rw [if_pos hl]
    obtain ⟨h12, hstuff⟩ := htf hl
    refine ⟨?_, ?_, fun _ => rfl⟩
    · rw [ht]
      simp [List.countP_append, h12, mkSt, isCmd]
    · rw [ht]
      simp [List.countP_append, hstuff, mkSt, isStuffEv]
  · rw [if_neg hl]
    have hl2 : (readBlocksLoop env count
        (sd_cmd env { mkSt p e b with lastError := SdError.none } 18
          (sdAddr (mkSt p e b).isSdhc sector)).2).1 = true := by
      simpa using hl
    obtain ⟨h12, hstuff⟩ := htt hl2
    have hlerr := readBlocksLoop_true_lastError env count _ hl2
    have hcl := sd_cmd_lastError_clean env
      { mkSt p e b with lastError := SdError.none } 18
      (sdAddr (mkSt p e b).isSdhc sector) hacc2
    split
    next h2 =>
      refine ⟨?_, ?_, fun _ => rfl⟩
      · simp only [fill_trace, wait_ready_trace, sd_send_cmd12_trace]
        rw [ht]
        simp [List.countP_append, h12, isCmd, isStuffEv, mkSt]
      · simp only [fill_trace, wait_ready_trace, sd_send_cmd12_trace]
        rw [ht]
        simp [List.countP_append, hstuff, isCmd, isStuffEv, mkSt]
    next h2 =>
      refine ⟨?_, ?_, ?_⟩
      · simp only [fill_trace, wait_ready_trace, sd_send_cmd12_trace]
        rw [ht]
        simp [List.countP_append, h12, isCmd, isStuffEv, mkSt]
      · simp only [fill_trace, wait_ready_trace, sd_send_cmd12_trace]
        rw [ht]
        simp [List.countP_append, hstuff, isCmd, isStuffEv, mkSt]
      · intro hmem
        exfalso
        rcases hmem with h | h | h | h <;>
          · simp only [fill_lastError, wait_ready_lastError,
              sd_send_cmd12_lastError] at h
            rw [hlerr, hcl] at h
            simp [mkSt] at h

/-- Witness for C3 on a card that completes a 2-block CMD18 read. -/
theorem C3_read_stop_transmission_witness :
    1 < 2 ∧
    (sd_cmd envRead2 (mkSt 0 SdError.none true) 18 (sdAddr true 0)).1 &&&
      0xFE = 0 ∧
    (sd_read_blocks envRead2 (mkSt 0 SdError.none true) 0 2).2.trace.countP
      (isCmd 12) = 1 :=
  ⟨by decide, by decide,
   (C3_read_stop_transmission_exactly_once envRead2 0 SdError.none true 0 2
     (by decide) (by decide)).1⟩

/-- C4: for count > 1, once CMD25 was accepted, every exit from
sd_write_blocks' multi-block path — all blocks written, data-response
abort, busy-timeout abort — transmits exactly one StopTran token (0xFD)
followed by one filler byte and a not-busy wait before returning: the trace
ends with [StopTran, fill, waitBusy, fill] and contains no other StopTran. -/
theorem C4_write_stop_tran_on_every_exit (env : Env) (p : Nat) (e : SdError)
    (b : Bool) (sector count : Nat) (bufs : List (List Nat))
    (hcount : 1 < count)
    (hacc : (writeBlocksPre env (mkSt p e b) sector count).1 &&& 0xFE = 0) :
    ∃ q, (sd_write_blocks env (mkSt p e b) sector count bufs).2.trace =
        q ++ [Ev.token 0xFD, Ev.fill, Ev.waitBusy, Ev.fill] ∧
      q.countP isStopTran = 0 := by
  have hc1 : count ≠ 1 := by omega
  simp only [sd_write_blocks]
  rw [if_neg hc1, if_neg (not_ne_iff.mpr hacc)]
  obtain ⟨u, hu, hcu⟩ := writeBlocksPre_trace env (mkSt p e b) sector count
  obtain ⟨t, ht, htt, htf⟩ := writeBlocksLoop_trace env
    ((List.range count).map (fun i => bufs.getD i []))
    (writeBlocksPre env (mkSt p e b) sector count).2
  by_cases hl : (writeBlocksLoop env
      ((List.range count).map (fun i => bufs.getD i []))
      (writeBlocksPre env (mkSt p e b) sector count).2).1 = false
  · rw [if_pos hl]
    obtain ⟨t0, ht0, hc0⟩ := htf hl
    refine ⟨(mkSt p e b).trace ++ u ++ t0, ?_, ?_⟩
    · rw [ht, hu, ht0]
      simp [List.append_assoc]
    · simp [List.countP_append, hcu, hc0, mkSt]
  · rw [if_neg hl]
    have hl2 : (writeBlocksLoop env
        ((List.range count).map (fun i => bufs.getD i []))
        (writeBlocksPre env (mkSt p e b) sector count).2).1 = true := by
      simpa using hl
    have ht0 := htt hl2
    split
    next h2 =>
      refine ⟨(mkSt p e b).trace ++ u ++ t, ?_, ?_⟩
      · simp only [fill_trace, wait_ready_trace, sendToken_trace]
        rw [ht, hu]
        simp [List.append_assoc]
      · simp [List.countP_append, hcu, ht0, mkSt]
    next h2 =>
      refine ⟨(mkSt p e b).trace ++ u ++ t, ?_, ?_⟩
      · simp only [fill_trace, wait_ready_trace, sendToken_trace]
        rw [ht, hu]
        simp [List.append_assoc]
      · simp [List.countP_append, hcu, ht0, mkSt]

/-- Witness for C4 on a card that completes a 2-block CMD25 write. -/
theorem C4_write_stop_tran_witness :
    1 < 2 ∧
    (writeBlocksPre envWrite2 (mkSt 0 SdError.none true) 0 2).1 &&& 0xFE = 0 ∧
    ∃ q, (sd_write_blocks envWrite2 (mkSt 0 SdError.none true) 0 2
        [List.replicate 512 0, List.replicate 512 0]).2.trace =
        q ++ [Ev.token 0xFD, Ev.fill, Ev.waitBusy, Ev.fill] ∧
      q.countP isStopTran = 0 :=
  ⟨by decide, by decide,
   C4_write_stop_tran_on_every_exit envWrite2 0 SdError.none true 0 2
     [List.replicate 512 0, List.replicate 512 0] (by decide) (by decide)⟩

/-- C10 counterexample: on a card whose CMD59 response carries the R1
CRC-error bit (a non-fatal command during init), sd_card_init returns true
yet sd_last_error reports SD_ERR_CRC_CMD — success with a nonzero error
code left behind. -/
theorem C10_init_true_with_nonzero_error :
    (sd_card_init envInitCrc (mkSt 0 SdError.none false)).1 = true ∧
    sd_last_error (sd_card_init envInitCrc (mkSt 0 SdError.none false)).2 =
      SdError.crcCmd ∧
    SdError.crcCmd ≠ SdError.none := by
  decide

/-- C10 (amended): for sd_read_block, sd_read_blocks, sd_write_block,
sd_write_blocks with count = 1, and sd_get_sector_count, the operation
returned success exactly when sd_last_error reports SD_ERR_NONE afterwards.
sd_card_init and the count > 1 path of sd_write_blocks are excluded: their
non-fatal commands (CMD59, CMD55/ACMD23) can leave SD_ERR_CRC_CMD behind a
successful return. -/
theorem C10_result_true_iff_no_error (env : Env) (s : St) (sector count : Nat)
    (buf : List Nat) (bufs : List (List Nat)) :
    ((sd_read_block env s sector).1 = true ↔
      sd_last_error (sd_read_block env s sector).2 = SdError.none) ∧
    ((sd_read_blocks env s sector count).1 = true ↔
      sd_last_error (sd_read_blocks env s sector count).2 = SdError.none) ∧
    ((sd_write_block env s sector buf).1 = true ↔
      sd_last_error (sd_write_block env s sector buf).2 = SdError.none) ∧
    ((sd_write_blocks env s sector 1 bufs).1 = true ↔
      sd_last_error (sd_write_blocks env s sector 1 bufs).2 = SdError.none) ∧
    ((sd_get_sector_count env s).1.isSome = true ↔
      sd_last_error (sd_get_sector_count env s).2 = SdError.none) := by
  refine ⟨sd_read_block_true_iff env s sector,
    sd_read_blocks_true_iff env s sector count,
    sd_write_block_true_iff env s sector buf, ?_,
    sd_get_sector_count_some_iff env s⟩
  show (sd_write_blocks env s sector 1 bufs).1 = true ↔
    (sd_write_blocks env s sector 1 bufs).2.lastError = SdError.none
  simp only [sd_write_blocks, if_true]
  exact sd_write_block_true_iff env s sector (bufs.headD [])

/-- Every getD lookup into the bytes produced by readBytes is below 256. -/
theorem readBytes_getD_lt (env : Env) (s : St) (n i : Nat) :
    (readBytes env s n).1.getD i 0 < 256 := by
  have hmem : ∀ x ∈ (readBytes env s n).1, x < 256 := by
    intro x hx
    simp only [readBytes, List.mem_map, List.mem_range] at hx
    obtain ⟨j, _, hj⟩ := hx
    omega
  rw [List.getD_eq_getElem?_getD]
  cases hh : (readBytes env s n).1[i]? with
  | none => simp
  | some a =>
    simp only [Option.getD_some]
    exact hmem a (List.getElem?_mem hh)

/-- C2 (amended): for every CSD register whose version bits denote CSD v1,
delivered intact (CMD9 accepted, start token received, matching CRC) and
with C_SIZE_MULT + READ_BL_LEN ≥ 7 (the C code's unsigned shift amount is
only meaningful then; real CSDs have READ_BL_LEN ≥ 9), sd_get_sector_count
succeeds and stores (C_SIZE + 1) << (C_SIZE_MULT + READ_BL_LEN − 7) with
the fields taken from the received bytes; at the spec's example
(C_SIZE = 0x0F23, C_SIZE_MULT = 7, READ_BL_LEN = 9) this is
0x0F24 << 9 = 0x1E4800 sectors. -/
theorem C2_csd_v1_sector_count (env : Env) (s : St)
    (hacc : (csdStage1 env s).1 &&& 0xFE = 0)
    (htok : (csdStage2 env s).1 = true)
    (hcrc : csdCrc env s = crc16_ccitt (csdBytes env s))
    (hver : ((csdBytes env s).getD 0 0 >>> 6) &&& 0x03 = 0)
    (hlen : 7 ≤ ((((csdBytes env s).getD 9 0 &&& 0x03) <<< 1) |||
        (((csdBytes env s).getD 10 0 >>> 7) &&& 0x01)) +
        ((csdBytes env s).getD 5 0 &&& 0x0F)) :
    (sd_get_sector_count env s).1 = some
      ((((((csdBytes env s).getD 6 0 &&& 0x03) <<< 10) |||
          ((csdBytes env s).getD 7 0 <<< 2) |||
          (((csdBytes env s).getD 8 0 &&& 0xC0) >>> 6)) + 1) <<<
        (((((csdBytes env s).getD 9 0 &&& 0x03) <<< 1) |||
          (((csdBytes env s).getD 10 0 >>> 7) &&& 0x01)) +
          ((csdBytes env s).getD 5 0 &&& 0x0F) - 7)) := by
  simp only [csdStage1, csdStage2, csdBytes, csdCrc] at hacc htok hcrc hver hlen ⊢
  simp only [sd_get_sector_count]
  rw [if_neg (not_ne_iff.mpr hacc), if_neg (by simp [htok]), if_neg (not_ne_iff.mpr hcrc)]
  show some _ = some _
  congr 1
  unfold csdCapacity
  rw [if_neg (by rw [hver]; decide)]
  have h6 := readBytes_getD_lt env (wait_for_data_token env
    (sd_cmd env { s with lastError := SdError.none } 9 0).2 env.readFuel).2 16 6
  have h7 := readBytes_getD_lt env (wait_for_data_token env
    (sd_cmd env { s with lastError := SdError.none } 9 0).2 env.readFuel).2 16 7
  have h8 := readBytes_getD_lt env (wait_for_data_token env
    (sd_cmd env { s with lastError := SdError.none } 9 0).2 env.readFuel).2 16 8
  have h9 := readBytes_getD_lt env (wait_for_data_token env
    (sd_cmd env { s with lastError := SdError.none } 9 0).2 env.readFuel).2 16 9
  have h10 := readBytes_getD_lt env (wait_for_data_token env
    (sd_cmd env { s with lastError := SdError.none } 9 0).2 env.readFuel).2 16 10
  have h5 := readBytes_getD_lt env (wait_for_data_token env
    (sd_cmd env { s with lastError := SdError.none } 9 0).2 env.readFuel).2 16 5
  set X := (readBytes env (wait_for_data_token env
    (sd_cmd env { s with lastError := SdError.none } 9 0).2 env.readFuel).2 16).1
    with hX
  have hc1 : (X.getD 6 0 &&& 0x03) <<< 10 < 2 ^ 12 := by
    rw [Nat.shiftLeft_eq]
    have := Nat.and_le_right (n := X.getD 6 0) (m := 0x03)
    have hp : (2 : Nat) ^ 10 = 1024 := by norm_num
    rw [hp]
    omega
  have hc2 : X.getD 7 0 <<< 2 < 2 ^ 12 := by
    rw [Nat.shiftLeft_eq]
    have := h7
    have hp : (2 : Nat) ^ 2 = 4 := by norm_num
    rw [hp]
    omega
  have hc3 : (X.getD 8 0 &&& 0xC0) >>> 6 < 2 ^ 12 := by
    rw [Nat.shiftRight_eq_div_pow]
    have := Nat.and_le_right (n := X.getD 8 0) (m := 0xC0)
    have hp : (2 : Nat) ^ 6 = 64 := by norm_num
    rw [hp]
    omega
  have hcs : ((X.getD 6 0 &&& 0x03) <<< 10) ||| (X.getD 7 0 <<< 2) |||
      ((X.getD 8 0 &&& 0xC0) >>> 6) < 2 ^ 12 :=
    Nat.or_lt_two_pow (Nat.or_lt_two_pow hc1 hc2) hc3
  have hm1 : (X.getD 9 0 &&& 0x03) <<< 1 < 2 ^ 3 := by
    rw [Nat.shiftLeft_eq]
    have := Nat.and_le_right (n := X.getD 9 0) (m := 0x03)
    have hp : (2 : Nat) ^ 1 = 2 := by norm_num
    rw [hp]
    omega
  have hm2 : (X.getD 10 0 >>> 7) &&& 0x01 < 2 ^ 3 := by
    have := Nat.and_le_right (n := X.getD 10 0 >>> 7) (m := 0x01)
    omega
  have hmult : ((X.getD 9 0 &&& 0x03) <<< 1) ||| ((X.getD 10 0 >>> 7) &&& 0x01) <
      2 ^ 3 := Nat.or_lt_two_pow hm1 hm2
  have hlen15 : X.getD 5 0 &&& 0x0F ≤ 15 :=
    Nat.and_le_right (n := X.getD 5 0) (m := 0x0F)
  have hshift : (((X.getD 9 0 &&& 0x03) <<< 1) ||| ((X.getD 10 0 >>> 7) &&& 0x01)) +
      (X.getD 5 0 &&& 0x0F) - 7 ≤ 15 := by omega
  have hbound : ((((X.getD 6 0 &&& 0x03) <<< 10) ||| (X.getD 7 0 <<< 2) |||
      ((X.getD 8 0 &&& 0xC0) >>> 6)) + 1) <<<
      ((((X.getD 9 0 &&& 0x03) <<< 1) ||| ((X.getD 10 0 >>> 7) &&& 0x01)) +
        (X.getD 5 0 &&& 0x0F) - 7) < 4294967296 := by
    rw [Nat.shiftLeft_eq]
    calc ((((X.getD 6 0 &&& 0x03) <<< 10) ||| (X.getD 7 0 <<< 2) |||
        ((X.getD 8 0 &&& 0xC0) >>> 6)) + 1) * 2 ^
        ((((X.getD 9 0 &&& 0x03) <<< 1) ||| ((X.getD 10 0 >>> 7) &&& 0x01)) +
          (X.getD 5 0 &&& 0x0F) - 7)
        ≤ 2 ^ 12 * 2 ^ 15 := by
          exact Nat.mul_le_mul hcs (Nat.pow_le_pow_right (by norm_num) hshift)
      _ < 4294967296 := by norm_num
  exact Nat.mod_eq_of_lt hbound

/-- C2 counterexample: at the spec's own example CSD (C_SIZE = 0x0F23,
C_SIZE_MULT = 7, READ_BL_LEN = 9, delivered intact), sd_get_sector_count
stores 0x0F24 << 9 = 0x1E4800 sectors, not the 0x1E48000 the claim states. -/
theorem C2_example_value_is_1E4800 :
    (sd_get_sector_count envCsd (mkSt 0 SdError.none true)).1 = some 0x1E4800 ∧
    (0x1E4800 : Nat) ≠ 0x1E48000 := by
  decide

/-- Witness for C2 at the concrete envCsd card. -/
theorem C2_csd_v1_sector_count_witness :
    ((csdStage1 envCsd (mkSt 0 SdError.none true)).1 &&& 0xFE = 0) ∧
    ((csdStage2 envCsd (mkSt 0 SdError.none true)).1 = true) ∧
    (csdCrc envCsd (mkSt 0 SdError.none true) =
      crc16_ccitt (csdBytes envCsd (mkSt 0 SdError.none true))) ∧
    (((csdBytes envCsd (mkSt 0 SdError.none true)).getD 0 0 >>> 6) &&& 0x03 = 0) ∧
    (sd_get_sector_count envCsd (mkSt 0 SdError.none true)).1 = some 0x1E4800 :=
  ⟨by decide, by decide, by decide, by decide,
   (C2_csd_v1_sector_count envCsd (mkSt 0 SdError.none true) (by decide)
     (by decide) (by decide) (by decide) (by decide)).trans (by decide)⟩

/-- C8: for every logical sector index, every read or write entry point
sends its data command (CMD17, CMD18, CMD24, CMD25) with the 32-bit
argument sdAddr: the sector index itself when the card is block-addressed
(is_sdhc) and sector · 512 modulo 2^32 when it is byte-addressed. -/
theorem C8_address_translation (env : Env) (p : Nat) (e : SdError) (b : Bool)
    (sector count : Nat) (buf : List Nat) (bufs : List (List Nat)) :
    cmdArgsOk 17 (sdAddr b sector)
      (sd_read_block env (mkSt p e b) sector).2.trace ∧
    cmdArgsOk 17 (sdAddr b sector)
      (sd_read_blocks env (mkSt p e b) sector count).2.trace ∧
    cmdArgsOk 18 (sdAddr b sector)
      (sd_read_blocks env (mkSt p e b) sector count).2.trace ∧
    cmdArgsOk 24 (sdAddr b sector)
      (sd_write_block env (mkSt p e b) sector buf).2.trace ∧
    cmdArgsOk 24 (sdAddr b sector)
      (sd_write_blocks env (mkSt p e b) sector count bufs).2.trace ∧
    cmdArgsOk 25 (sdAddr b sector)
      (sd_write_blocks env (mkSt p e b) sector count bufs).2.trace := by
  refine ⟨?_, ?_, ?_, ?_, ?_, ?_⟩
  · intro x hx
    obtain ⟨t, ht, hp⟩ := sd_read_block_cmds env (mkSt p e b) sector
    rw [ht] at hx
    simp only [mkSt, List.nil_append] at hx
    exact (hp 17 x hx).2
  · intro x hx
    obtain ⟨t, ht, hp⟩ := sd_read_blocks_cmds env (mkSt p e b) sector count
    rw [ht] at hx
    simp only [mkSt, List.nil_append] at hx
    rcases hp 17 x hx with h | h | h
    · exact h.2
    · exact absurd h.1 (by decide)
    · exact absurd h.1 (by decide)
  · intro x hx
    obtain ⟨t, ht, hp⟩ := sd_read_blocks_cmds env (mkSt p e b) sector count
    rw [ht] at hx
    simp only [mkSt, List.nil_append] at hx
    rcases hp 18 x hx with h | h | h
    · exact absurd h.1 (by decide)
    · exact h.2
    · exact absurd h.1 (by decide)
  · intro x hx
    obtain ⟨t, ht, hp⟩ := sd_write_block_cmds env (mkSt p e b) sector buf
    rw [ht] at hx
    simp only [mkSt, List.nil_append] at hx
    exact (hp 24 x hx).2
  · intro x hx
    obtain ⟨t, ht, hp⟩ := sd_write_blocks_cmds env (mkSt p e b) sector count bufs
    rw [ht] at hx
    simp only [mkSt, List.nil_append] at hx
    rcases hp 24 x hx with h | h | h | h
    · exact h.2
    · exact absurd h.1 (by decide)
    · exact absurd h.1 (by decide)
    · exact absurd h.1 (by decide)
  · intro x hx
    obtain ⟨t, ht, hp⟩ := sd_write_blocks_cmds env (mkSt p e b) sector count bufs
    rw [ht] at hx
    simp only [mkSt, List.nil_append] at hx
    rcases hp 25 x hx with h | h | h | h
    · exact absurd h.1 (by decide)
    · exact absurd h.1 (by decide)
    · exact absurd h.1 (by decide)
    · exact h.2

/-- Witness for C8 on the concrete 2-block CMD18 read: the CMD18 packet in
the trace carries argument sdAddr true 0. -/
theorem C8_address_translation_witness :
    Ev.cmdPacket 18 0 ∈
      (sd_read_blocks envRead2 (mkSt 0 SdError.none true) 0 2).2.trace ∧
    (0 : Nat) = sdAddr true 0 :=
  ⟨by decide,
   (C8_address_translation envRead2 0 SdError.none true 0 2 [] []).2.2.1 0
     (by decide)⟩

end SdCard
